import Mathlib

/-!
Verification development for the Deadlock-Transcriptions normalization
pipeline: a shallow embedding of the three scripts
(autoFixWhisperErrors.py, fixHallucinatedScreams.py, validate_json.py).

The scripts drive everything through the Python `re` module, so the
embedding starts with a small model of the `re` features those scripts
use: literals, character classes with ranges and the escapes \s \d \w,
the anchors ^ and $, the word boundary \b, grouping and alternation,
the greedy quantifiers * + ? and at-least-n counted repeats, the dot,
the inline flag group for case-insensitive matching at the start of a
pattern, and the group-1 backreference in a replacement template.
Compilation of a pattern can fail (Python raises re.error, for
instance on a character-class range whose lower bound exceeds its
upper bound); this is modelled by Option, with none standing for a
raised exception.  Matching is leftmost search with a backtracking,
greedy, left-preferring interpreter, as in `re`.

Modelling conventions, used throughout:
* strings are lists of Char (Lean String on the surface);
* case-insensitive comparison folds ASCII letters only (every string a
  theorem below evaluates on is pure ASCII);
* the word-character test used by \b and \w treats all non-ASCII
  codepoints as word characters (again immaterial on ASCII inputs);
* fallible Python code becomes Option-valued: none is an uncaught
  exception (re.error, TypeError, AttributeError, KeyError).
-/

/-- Items of a regex character class: a single character, an inclusive
codepoint range, or one of the escapes \d \s \w. -/
inductive ClsItem where
  | one (c : Char)
  | range (lo hi : Char)
  | perlD
  | perlS
  | perlW
  deriving Repr, DecidableEq

/-- Abstract syntax of the regex fragment the repository uses. -/
inductive Rx where
  | eps
  | lit (c : Char)
  | cls (items : List ClsItem)
  | dot
  | seq (a b : Rx)
  | alt (a b : Rx)
  | star (a : Rx)
  | group (n : Nat) (a : Rx)
  | bow
  | bol
  | eol
  deriving Repr, DecidableEq

/-- Python str.isspace / re \s codepoints (the Unicode whitespace set,
which also governs str.strip and str.split with no arguments). -/
def pyIsSpace (c : Char) : Bool :=
  let n := c.toNat
  (9 ≤ n && n ≤ 13) || (28 ≤ n && n ≤ 32) || n = 133 || n = 160 ||
  n = 5760 || (8192 ≤ n && n ≤ 8202) || n = 8232 || n = 8233 ||
  n = 8239 || n = 8287 || n = 12288

/-- ASCII decimal digit, as matched by re \d on these inputs. -/
def pyIsDigit (c : Char) : Bool :=
  48 ≤ c.toNat && c.toNat ≤ 57

/-- Word characters for \w and \b.  ASCII alphanumerics and the
underscore exactly as in `re`; non-ASCII codepoints are approximated
as word characters (all inputs evaluated below are ASCII). -/
def isWordChar (c : Char) : Bool :=
  let n := c.toNat
  (48 ≤ n && n ≤ 57) || (65 ≤ n && n ≤ 90) || (97 ≤ n && n ≤ 122) ||
  n = 95 || 128 ≤ n

/-- Lower-case an ASCII letter, identity elsewhere. -/
def asciiLower (c : Char) : Char :=
  if 65 ≤ c.toNat && c.toNat ≤ 90 then Char.ofNat (c.toNat + 32) else c

/-- Toggle the case of an ASCII letter, identity elsewhere. -/
def asciiSwapCase (c : Char) : Char :=
  if 65 ≤ c.toNat && c.toNat ≤ 90 then Char.ofNat (c.toNat + 32)
  else if 97 ≤ c.toNat && c.toNat ≤ 122 then Char.ofNat (c.toNat - 32)
  else c

/-- Literal character comparison, optionally case-insensitive. -/
def charEqIC (ic : Bool) (p a : Char) : Bool :=
  if ic then asciiLower p == asciiLower a else p == a

/-- Does one class item accept a character? -/
def itemMatch (it : ClsItem) (a : Char) : Bool :=
  match it with
  | ClsItem.one c => a == c
  | ClsItem.range lo hi => lo.toNat ≤ a.toNat && a.toNat ≤ hi.toNat
  | ClsItem.perlD => pyIsDigit a
  | ClsItem.perlS => pyIsSpace a
  | ClsItem.perlW => isWordChar a

/-- Class membership; under IGNORECASE a character also matches if its
case-swapped variant is in the class, as in `re`. -/
def clsMatch (ic : Bool) (items : List ClsItem) (a : Char) : Bool :=
  items.any (fun it => itemMatch it a) ||
  (ic && items.any (fun it => itemMatch it (asciiSwapCase a)))

/-- Word-character test on an optional character (string edges count
as non-word positions for \b). -/
def isWordO : Option Char → Bool
  | none => false
  | some c => isWordChar c

/-- Completed capture groups, most recent first. -/
abbrev Caps := List (Nat × List Char)

/-- Lazy orElse on Option, so a successful branch short-circuits. -/
def firstSome {α : Type} (a : Option α) (b : Unit → Option α) : Option α :=
  match a with
  | some x => some x
  | none => b ()

/-- Backtracking matcher in continuation-passing style.  `prev` is the
character just before the current position (none at the start of the
subject), `s` the remaining subject.  The continuation receives the
state after the node has matched; alternation tries its left branch
first and `star` is greedy, matching the `re` backtracking engine.  A
`star` iteration that consumes nothing is cut off, which agrees with
`re` (an empty repetition never repeats).  Fuel only bounds the call
depth; every evaluation below stays far under it. -/
def mrun (ic : Bool) :
    Nat → Rx → Option Char → List Char → Caps →
    (Option Char → List Char → Caps → Option (List Char × Caps)) →
    Option (List Char × Caps)
  | 0, _, _, _, _, _ => none
  | fuel + 1, r, prev, s, caps, k =>
    match r with
    | Rx.eps => k prev s caps
    | Rx.lit c =>
      match s with
      | [] => none
      | a :: rest => if charEqIC ic c a then k (some a) rest caps else none
    | Rx.cls items =>
      match s with
      | [] => none
      | a :: rest => if clsMatch ic items a then k (some a) rest caps else none
    | Rx.dot =>
      match s with
      | [] => none
      | a :: rest => if a == '\n' then none else k (some a) rest caps
    | Rx.seq r1 r2 =>
      mrun ic fuel r1 prev s caps (fun p2 s2 c2 => mrun ic fuel r2 p2 s2 c2 k)
    | Rx.alt r1 r2 =>
      firstSome (mrun ic fuel r1 prev s caps k)
        (fun _ => mrun ic fuel r2 prev s caps k)
    | Rx.star r1 =>
      firstSome
        (mrun ic fuel r1 prev s caps (fun p2 s2 c2 =>
          if s2.length < s.length then mrun ic fuel (Rx.star r1) p2 s2 c2 k
          else none))
        (fun _ => k prev s caps)
    | Rx.group n r1 =>
      mrun ic fuel r1 prev s caps (fun p2 s2 c2 =>
        k p2 s2 ((n, s.take (s.length - s2.length)) :: c2))
    | Rx.bow =>
      if isWordO prev != isWordO s.head? then k prev s caps else none
    | Rx.bol =>
      match prev with
      | none => k prev s caps
      | some _ => none
    | Rx.eol =>
      match s with
      | [] => k prev s caps
      | [c] => if c == '\n' then k prev s caps else none
      | _ => none

/-- Depth budget for the matcher; generous for every subject below. -/
def MFUEL : Nat := 4000

/-- Try a match anchored at the current position (re.match semantics
relative to that position).  Returns the number of characters consumed
and the captures. -/
def tryMatch (ic : Bool) (r : Rx) (prev : Option Char) (s : List Char) :
    Option (Nat × Caps) :=
  match mrun ic MFUEL r prev s [] (fun _ s2 c2 => some (s2, c2)) with
  | none => none
  | some (s2, caps) => some (s.length - s2.length, caps)

/-- Leftmost search (re.search): try each start position left to
right.  Returns the reversed prefix before the match, the matched
characters, the captures and the suffix after the match. -/
def rsearch (ic : Bool) (r : Rx) :
    Option Char → List Char → List Char →
    Option (List Char × List Char × Caps × List Char)
  | prev, s, accRev =>
    match tryMatch ic r prev s with
    | some (n, caps) => some (accRev, s.take n, caps, s.drop n)
    | none =>
      match s with
      | [] => none
      | a :: rest => rsearch ic r (some a) rest (a :: accRev)

/-- Items of a substitution template: literal text or a group
backreference. -/
inductive TmplItem where
  | lit (c : Char)
  | ref (n : Nat)
  deriving Repr, DecidableEq

/-- Parse a replacement string; the only escape the repository uses is
a backslash followed by a group digit. -/
def parseTmpl : List Char → List TmplItem
  | [] => []
  | '\\' :: c :: rest =>
    if pyIsDigit c then TmplItem.ref (c.toNat - 48) :: parseTmpl rest
    else TmplItem.lit c :: parseTmpl rest
  | c :: rest => TmplItem.lit c :: parseTmpl rest

/-- Instantiate a template with the captures of a match. -/
def applyTmpl (tmpl : List TmplItem) (caps : Caps) : List Char :=
  match tmpl with
  | [] => []
  | TmplItem.lit c :: rest => c :: applyTmpl rest caps
  | TmplItem.ref n :: rest =>
    (match caps.find? (fun kv => kv.1 == n) with
     | some kv => kv.2
     | none => []) ++ applyTmpl rest caps

/-- Last character of a matched span, for the \b context of the next
search; falls back to the previous context character. -/
def lastChar (matched : List Char) (prev : Option Char) : Option Char :=
  match matched.getLast? with
  | some c => some c
  | none => prev

/-- re.sub: replace every non-overlapping match, scanning left to
right over the original subject (replacements are never rescanned).
After an empty match one character is copied over, as `re` does.  The
fuel is the subject length plus one, enough for every iteration since
each one consumes at least one subject character. -/
def subAll (ic : Bool) (r : Rx) (tmpl : List TmplItem) :
    Nat → Option Char → List Char → List Char
  | 0, _, s => s
  | fuel + 1, prev, s =>
    match rsearch ic r prev s [] with
    | none => s
    | some (preRev, matched, caps, rest) =>
      preRev.reverse ++ applyTmpl tmpl caps ++
        (match matched with
         | [] =>
           (match rest with
            | [] => []
            | a :: rest2 => a :: subAll ic r tmpl fuel (some a) rest2)
         | _ =>
           (match rest with
            | [] => []
            | _ => subAll ic r tmpl fuel (lastChar matched prev) rest))

/-!
Pattern compilation.  `compileRx` models re.compile on the regex
fragment in use.  It returns none where `re` raises re.error; the one
such case these scripts can hit is a character-class range whose lower
codepoint exceeds its upper codepoint (two block-list patterns of
fixHallucinatedScreams.py are mojibake-corrupted into exactly that
shape).  Group indices are assigned left to right starting at 1.
-/

/-- Parse the inside of a character class after the opening bracket,
up to the closing bracket.  Ranges are validated as re.compile does:
a descending range is a compile error (none). -/
def parseCls : Nat → List Char → Option (List ClsItem × List Char)
  | 0, _ => none
  | fuel + 1, s =>
    match s with
    | [] => none
    | ']' :: rest => some ([], rest)
    | '\\' :: c :: rest =>
      let it :=
        if c == 's' then ClsItem.perlS
        else if c == 'd' then ClsItem.perlD
        else if c == 'w' then ClsItem.perlW
        else ClsItem.one c
      (parseCls fuel rest).map (fun pr => (it :: pr.1, pr.2))
    | c :: '-' :: d :: rest =>
      if d == ']' then
        (parseCls fuel (']' :: rest)).map
          (fun pr => (ClsItem.one c :: ClsItem.one '-' :: pr.1, pr.2))
      else if c.toNat ≤ d.toNat then
        (parseCls fuel rest).map (fun pr => (ClsItem.range c d :: pr.1, pr.2))
      else none
    | c :: rest =>
      (parseCls fuel rest).map (fun pr => (ClsItem.one c :: pr.1, pr.2))

/-- Repeat a regex a fixed number of times, then arbitrarily often
(the translation of an at-least-n counted repeat). -/
def repAtLeast : Nat → Rx → Rx
  | 0, r => Rx.star r
  | n + 1, r => Rx.seq r (repAtLeast n r)

/-- Accumulate further decimal digits. -/
def digitsAux : Nat → List Char → Nat × List Char
  | acc, [] => (acc, [])
  | acc, c :: rest =>
    if pyIsDigit c then digitsAux (acc * 10 + (c.toNat - 48)) rest
    else (acc, c :: rest)

/-- Read a nonempty run of decimal digits. -/
def parseDigits : List Char → Option (Nat × List Char)
  | c :: rest =>
    if pyIsDigit c then some (digitsAux (c.toNat - 48) rest) else none
  | [] => none

/-- Modes of the pattern parser: alternation level, concatenation
level, single item, postfix-quantifier loop (carrying the atom it
modifies), and atom. -/
inductive PMode where
  | palt
  | pseq
  | pitem
  | ppost (r : Rx)
  | patom

/-- Recursive-descent pattern parser, one function over an explicit
mode so that recursion is structural on the fuel and the kernel can
evaluate it.  Each mode consumes input and threads the next group
number.  palt: a sequence, then optionally a bar and another
alternation.  pseq: items until a bar, a closing parenthesis or the
end.  pitem: an atom with its postfix quantifiers.  ppost: greedy
* + ? and the at-least-n counted repeat.  patom: groups, classes,
anchors, escapes, dot, literals. -/
def parseM : Nat → PMode → Nat → List Char → Option (Rx × Nat × List Char)
  | 0, _, _, _ => none
  | fuel + 1, PMode.palt, gn, s =>
    (match parseM fuel PMode.pseq gn s with
     | none => none
     | some (r1, gn1, s1) =>
       match s1 with
       | '|' :: rest =>
         (match parseM fuel PMode.palt gn1 rest with
          | none => none
          | some (r2, gn2, s2) => some (Rx.alt r1 r2, gn2, s2))
       | _ => some (r1, gn1, s1))
  | fuel + 1, PMode.pseq, gn, s =>
    (match s with
     | [] => some (Rx.eps, gn, [])
     | c :: _ =>
       if c == '|' || c == ')' then some (Rx.eps, gn, s)
       else
         match parseM fuel PMode.pitem gn s with
         | none => none
         | some (r1, gn1, s1) =>
           match parseM fuel PMode.pseq gn1 s1 with
           | none => none
           | some (r2, gn2, s2) => some (Rx.seq r1 r2, gn2, s2))
  | fuel + 1, PMode.pitem, gn, s =>
    (match parseM fuel PMode.patom gn s with
     | none => none
     | some (r, gn1, s1) => parseM fuel (PMode.ppost r) gn1 s1)
  | fuel + 1, PMode.ppost r, gn, s =>
    (match s with
     | '*' :: rest => parseM fuel (PMode.ppost (Rx.star r)) gn rest
     | '+' :: rest => parseM fuel (PMode.ppost (Rx.seq r (Rx.star r))) gn rest
     | '?' :: rest => parseM fuel (PMode.ppost (Rx.alt r Rx.eps)) gn rest
     | '{' :: rest =>
       (match parseDigits rest with
        | some (n, ',' :: '}' :: rest2) =>
          parseM fuel (PMode.ppost (repAtLeast n r)) gn rest2
        | _ => none)
     | _ => some (r, gn, s))
  | fuel + 1, PMode.patom, gn, s =>
    (match s with
     | [] => none
     | '(' :: rest =>
       (match parseM fuel PMode.palt (gn + 1) rest with
        | some (r, gn1, ')' :: s2) => some (Rx.group gn r, gn1, s2)
        | _ => none)
     | '[' :: rest =>
       (match parseCls (rest.length + 1) rest with
        | some (items, s2) => some (Rx.cls items, gn, s2)
        | none => none)
     | '^' :: rest => some (Rx.bol, gn, rest)
     | '$' :: rest => some (Rx.eol, gn, rest)
     | '.' :: rest => some (Rx.dot, gn, rest)
     | '\\' :: c :: rest =>
       if c == 'b' then some (Rx.bow, gn, rest)
       else if c == 's' then some (Rx.cls [ClsItem.perlS], gn, rest)
       else if c == 'd' then some (Rx.cls [ClsItem.perlD], gn, rest)
       else if c == 'w' then some (Rx.cls [ClsItem.perlW], gn, rest)
       else if pyIsDigit c then none
       else some (Rx.lit c, gn, rest)
     | c :: rest =>
       if c == '*' || c == '+' || c == '?' || c == ')' || c == '|' || c == '\\'
       then none
       else some (Rx.lit c, gn, rest))

/-- Compile a pattern string: an optional leading inline
case-insensitivity flag group, then the pattern body, which must be
consumed entirely.  none models a raised re.error. -/
def compileRx (p : String) : Option (Bool × Rx) :=
  let (ic, body) :=
    match p.data with
    | '(' :: '?' :: 'i' :: ')' :: rest => (true, rest)
    | d => (false, d)
  match parseM (4 * body.length + 8) PMode.palt 1 body with
  | some (r, _, []) => some (ic, r)
  | _ => none

/-- re.match with flags: compile, then match anchored at the start.
none models re.error from compilation. -/
def pymatch (icFlag : Bool) (p : String) (t : List Char) : Option Bool :=
  match compileRx p with
  | none => none
  | some (ic0, r) => some (tryMatch (icFlag || ic0) r none t).isSome

/-- re.search with flags: compile, then leftmost search. -/
def pysearch (icFlag : Bool) (p : String) (t : List Char) : Option Bool :=
  match compileRx p with
  | none => none
  | some (ic0, r) => some (rsearch (icFlag || ic0) r none t []).isSome

/-- re.sub with flags: compile, then replace every match. -/
def pysub (icFlag : Bool) (p repl : String) (t : List Char) :
    Option (List Char) :=
  match compileRx p with
  | none => none
  | some (ic0, r) =>
    some (subAll (icFlag || ic0) r (parseTmpl repl.data) (t.length + 1) none t)
/-!
Rule tables, transcribed verbatim from the repository sources.  The
two data files carry them as Python literals; codepoints are kept
exactly as the files decode under UTF-8 (fixHallucinatedScreams.py is
mojibake-encoded on disk, and that corruption is part of the program
being verified).
-/

namespace Screams

/-- File patterns that contain non-verbal sounds (fixHallucinatedScreams.py lines 31 to 37). -/
def NONVERBAL_FILE_PATTERNS : List String := [
  "_pain_big_",
  "_pain_small_",
  "_pain_death_",
  "_pain_akira_laser_",
  "_effort_"
]

/-- Patterns that indicate hallucinated text (lines 41 to 144). -/
def HALLUCINATION_PATTERNS : List String := [
  "thank\\s*(you|u)\\s*(for)?\\s*watching",
  "thanks\\s*(for)?\\s*watching",
  "subscri(be|b|ption)",
  "like.*comment.*subscri",
  "don\\\x27?t\\s*forget\\s*to",
  "leave\\s*a\\s*comment",
  "next\\s*video",
  "previous\\s*video",
  "see\\s*you\\s*in\\s*the",
  "hope\\s*you\\s*enjoy",
  "enjoy\\s*the\\s*video",
  "click\\s*(on|the|here)",
  "notification",
  "channel",
  "patreon",
  "please\\s*like",
  "link\\s*in\\s*(the)?\\s*description",
  "transcription\\s*(by|is|has|service)",
  "translation\\s*(by|is)",
  "subs?\\s*by",
  "subtitle",
  "casting\\s*words",
  "do\\s*not\\s*include\\s*extra\\s*whitespace",
  "ambiguous\\s*transcription",
  "transcription\\s*sting",
  "http[s]?://",
  "www\\.",
  "\\.com",
  "\\.co\\.uk",
  "\\.org",
  "\\.net",
  "\\.au",
  "sites\\.google",
  "youtube",
  "tinyurl",
  "slidespot",
  "pissedconsumer",
  "\u00C2\u00A9",
  "copyright",
  "all\\s*rights\\s*reserved",
  "trademark",
  "disney",
  "all\\s*characters.*fictitious",
  "disclaimer",
  "used\\s*by\\s*permission",
  "to\\s*be\\s*continued",
  "the\\s*end\\.?$",
  "^game\\s*over$",
  "first\\s*person\\s*videos?",
  "chapter\\s*\\d",
  "episode\\s*\\d",
  "part\\s*\\d",
  "^available\\s*(now|at|for)",
  "[\u00D0\u00B0-\u00D1\u00D0-\u00D0\u00AF]\x7b3,\x7d",
  "[\u00E3\u201E\u00B1-\u00E3\u2026\u017D\u00EA\u00B0\u20AC-\u00ED\u017E\u00A3]\x7b2,\x7d",
  "[\u00E3-\u00E3\u201A\u201C\u00E3\u201A\u00A1-\u00E3\u0192\u00B3]\x7b3,\x7d",
  "[\u00E4\u00B8\u20AC-\u00E9\u00BE\u00A5]\x7b2,\x7d",
  "\u00C3\u00A9h\u00C3\u00A9h\u00C3\u00A9",
  "\u00F0\u0178\u2026\u00B1|\u00F0\u0178\u2026\u00B0|\u00F0\u0178\u2026\u00B5|\u00F0\u0178\u2020\u201A|\u00F0\u0178\u2020|\u00F0\u0178\u2020\u0192|\u00F0\u0178\u2026\u00B7|\u00F0\u0178\u2026\u00B4|\u00F0\u0178\u2026\u00B6|\u00F0\u0178\u2026\u00B3|\u00F0\u0178\u2026\u00BF",
  "[\u00E2\u2013\u00BA\u00E2\u2014\u201E\u00E2\u2013\u00B2\u00E2\u2013\u00BC]\x7b2,\x7d",
  "if\\s*you\\s*(find|have|did|enjoyed)",
  "please\\s*(see|click|post|leave)",
  "questions?\\s*(or|and)?\\s*(comments?|problems?)",
  "comments?\\s*section",
  "classroom\\s*footage",
  "save\\s*it\\s*in\\s*your",
  "horse\\s*neighs",
  "teenage\\s*girl\\s*screams",
  "awkward\\s*silence",
  "scream\\s*song",
  "u\\.?s\\.?\\s*money\\s*reserve",
  "rhyme\\s*films",
  "bloopers?",
  "off\\s*camera",
  "available.*free",
  "weltwerk",
  "behaviour",
  "answers?\\s*this\\s*question",
  "perfect\\s*for\\s*that\\s*purpose",
  "keep\\s*the\\s*video",
  "children\\\x27?s\\s*charity",
  "amogus",
  "control$",
  "^grunt$",
  "^cough$",
  "\\*\\*?(burp|fart|yawn|sigh|groan|grunt|shiver)\\*\\*?",
  "\\(\\*(burp|fart|yawn|sigh|groan|grunt|shiver|horse)\\*\\)"
]

/-- Patterns that indicate valid screams or groans (lines 147 to 164). -/
def VALID_SCREAM_PATTERNS : List String := [
  "^[AaUuOoEe]+[HhGgRr]*[!\\.]*$",
  "^(G|D\\\x27?)?[AaUuOo]+[HhGgRr]*[!\\.]*$",
  "^[Hh]+[IiYyAaUu]+[AaHh]*[!\\.]*$",
  "^(Ny|N)[AaEeUu]+[Hh]*[!\\.]*$",
  "^[Oo]+[FfOo]+[!\\.]*$",
  "^[Bb]+[AaLlRrUu]+[GgHhRr]*[!\\.]*$",
  "^[Rr]+[AaOo]+[Ww]*[Rr]*[!\\.]*$",
  "^[Mm]+[Ww]*[Aa]+[Hh]*[!\\.]*$",
  "^[Hh]+[Mm]+[Pp]*[Hh]*[Ff]*[!\\.]*$",
  "^[Yy]+[Ee]*[Aa]+[Hh]*[!\\.]*$",
  "^[Nn]+[Oo]+[!\\.]*$",
  "^[Oo]+[Ww]+[!\\.]*$",
  "^[Hh]+[Uu]+[Hh]*[!\\.]*$",
  "^[Ss]+[Ee]+[Ee]*[Yy]*[Aa]*[!\\.]*$",
  "^[Bb]+[Oo]+[Oo]*[Ff]*[!\\.]*$",
  "^[Gg]+[Rr]+[Rr]*[!\\.]*$"
]

/-- The punctuation-and-digits pattern of line 189 (its last class
entries are the mojibake decoding of a bullet character). -/
def PUNCT_ONLY_RE : String :=
  "^[\\s\\d\\.,\\?\\!\\-\\/\\~\\\u00E2\u20AC\u00A2\\=]+$"

end Screams

namespace AutoFix

/-- Character name corrections (autoFixWhisperErrors.py lines 38 to 130);
the source is a dict, embedded as its insertion-ordered pair list. -/
def CHARACTER_NAME_CORRECTIONS : List (String × String) := [
  ("Dormin", "Doorman"),
  ("Dorman", "Doorman"),
  ("Doman", "Doorman"),
  ("Dolmen", "Doorman"),
  ("Doughman", "Doorman"),
  ("Tolman", "Doorman"),
  ("Dormant", "Doorman"),
  ("Dormants", "Doorman\x27s"),
  ("Dormans", "Doorman\x27s"),
  ("Dormands", "Doorman\x27s"),
  ("Torment", "Doorman"),
  ("Torments", "Doorman\x27s"),
  ("Dormammu", "Doorman"),
  ("Grath", "Graf"),
  ("Graph", "Graf"),
  ("Graphs", "Graf\x27s"),
  ("Grafton", "Graf"),
  ("Venera", "Venator"),
  ("Venetus", "Venator"),
  ("Betterless", "Venator"),
  ("Hayes", "Haze"),
  ("Hace", "Haze"),
  ("Quill", "Krill"),
  ("Quills", "Krill\x27s"),
  ("Grills", "Krill\x27s"),
  ("Fatum", "Fathom"),
  ("Rathom", "Fathom"),
  ("Clairborne", "Sinclair"),
  ("Hyvie", "Ivy"),
  ("Ivey", "Ivy"),
  ("Ivies", "Ivy\x27s"),
  ("Wargon", "Warden"),
  ("Viscus", "Viscous"),
  ("Stambiscus", "Stun Viscous"),
  ("Kelphin", "Kelvin"),
  ("Kermin", "Kelvin"),
  ("McInnes", "McGinnis"),
  ("McGuinness", "McGinnis"),
  ("Guinness", "McGinnis"),
  ("McKinnis", "McGinnis"),
  ("Talico", "Calico"),
  ("Gallico", "Calico"),
  ("Colicle", "Calico"),
  ("Pyke", "Paige"),
  ("Victors", "Victor\x27s"),
  ("Greytaran", "Grey Talon"),
  ("Vindictus", "Vindicta"),
  ("Vindicus", "Vindicta"),
  ("Invictus", "Vindicta"),
  ("Perdox", "Paradox"),
  ("Peridox", "Paradox"),
  ("Pedidox", "Paradox"),
  ("Holladay", "Holliday"),
  ("Hollabase", "Holliday\x27s")
]

/-- Action word corrections (lines 133 to 145); defined by the source
but never consulted by fix_text. -/
def ACTION_CORRECTIONS : List (String × String) := [
  ("Stone", "Stun"),
  ("Stan", "Stun"),
  ("Stamina", "Stun Mina"),
  ("Stanyamato", "Stun Yamato"),
  ("Stormwrecker", "Stun Wrecker"),
  ("Stonewraith", "Stun Wraith"),
  ("Sunwraith", "Stun Wraith")
]

/-- Phrase pattern corrections, in declaration order (lines 150 to 766). -/
def PHRASE_CORRECTIONS : List (String × String) := [
  ("I can hear you\\b", "I can heal you"),
  ("I can hear ya\\b", "I can heal ya"),
  ("\\bThey took our\\b", "They took out"),
  ("\\bHe took out\\b", "They took out"),
  ("\\bShe took out\\b", "They took out"),
  ("\\bIt took out\\b", "They took out"),
  ("Let\x27s talk about\\b", "They took out"),
  ("They forgot the\\b", "They took out the"),
  ("I\x27m a Jew, Yamato\\b", "I\x27m with you, Yamato"),
  ("How would you, Bebop\\b", "I\x27m with you, Bebop"),
  ("\\bAssault Wrecker\\b", "I saw Wrecker"),
  ("\\bAssault Lash\\b", "I saw Lash"),
  ("\\bAssault Kelvin\\b", "I saw Kelvin"),
  ("\\bAssault Mirage\\b", "I saw Mirage"),
  ("\\bAssault Krill\\b", "I saw Krill"),
  ("\\bAssault Doorman\\b", "I saw Doorman"),
  ("\\bAssault Bebop\\b", "I saw Bebop"),
  ("\\bAssault Punkgoat\\b", "I saw Billy"),
  ("\\bAssault Drifter\\b", "I saw Drifter"),
  ("\\bAssault Hornet\\b", "I saw Vindicta"),
  ("\\bAssault Tengu\\b", "I saw Ivy"),
  ("\\bAssault Cadence\\b", "I saw Cadence"),
  ("A siggraph\\b", "I see Graf"),
  ("Decode Seven\\b", "They killed Seven"),
  ("\\bAnd took out\\b", "They took out"),
  ("what (\\w+) brought\\b", "what \\1 bought"),
  ("Check out our PageBot\\b", "Check out what Paige bought"),
  ("Check out McGinnis\x27 board\\b", "Check out what McGinnis bought"),
  ("Check out what\x27s 7-Ball\\b", "Check out what Seven bought"),
  ("Check out what\x27s in Clairborne\\b", "Check out what Sinclair bought"),
  ("Check out Krillbot\\b", "Check out what Krill bought"),
  ("Check out Aminabot\\b", "Check out what Mina bought"),
  ("Check out what I re-bought\\b", "Check out what Ivy bought"),
  ("Check out WarWraith Bar\\b", "Check out what Wraith bought"),
  ("Let\x27s take our graph\\b", "Let\x27s take out Graf"),
  ("Let\x27s take our Graf\\b", "Let\x27s take out Graf"),
  ("Stone Viscous\\b", "Stun Viscous"),
  ("Stone viscous\\b", "Stun Viscous"),
  ("Stone Page\\b", "Stun Paige"),
  ("Stone Dynamo\\b", "Stun Dynamo"),
  ("Stone Geist\\b", "Stun Geist"),
  ("Stone Abrams\\b", "Stun Abrams"),
  ("Stone Mirage\\b", "Stun Mirage"),
  ("Stone Grey Talon\\b", "Stun Grey Talon"),
  ("Stone Grey Calon\\b", "Stun Grey Talon"),
  ("Stone Shiv\\b", "Stun Shiv"),
  ("Stone Cadence\\b", "Stun Cadence"),
  ("Stone Paradox\\b", "Stun Paradox"),
  ("Stone Krill\\b", "Stun Krill"),
  ("Stone callie\\b", "Stun Calico"),
  ("Stone Kelvin\\b", "Stun Kelvin"),
  ("Stone raven\\b", "Stun Raven"),
  ("Stone Raven\\b", "Stun Raven"),
  ("Stone Gallico\\b", "Stun Calico"),
  ("Stone the Guinness\\b", "Stun McGinnis"),
  ("Stone wraith\\b", "Stun Wraith"),
  ("Stone Wraith\\b", "Stun Wraith"),
  ("Stone Ivy\\b", "Stun Ivy"),
  ("Stone ivy\\b", "Stun Ivy"),
  ("Stone pocket\\b", "Stun Pocket"),
  ("Stone Pocket\\b", "Stun Pocket"),
  ("Stone Vyper\\b", "Stun Vyper"),
  ("Stone the Hyvie\\b", "Stun Ivy"),
  ("Stone Vindicta\\b", "Stun Vindicta"),
  ("Stone Fathom\\b", "Stun Fathom"),
  ("Stone Lash\\b", "Stun Lash"),
  ("Stone Lush\\b", "Stun Lash"),
  ("Stone Bebop\\b", "Stun Bebop"),
  ("Stone the record\\b", "Stun Wrecker"),
  ("Stone yamato\\b", "Stun Yamato"),
  ("Stone Yamato\\b", "Stun Yamato"),
  ("Stone victor\\b", "Stun Victor"),
  ("Stan Viscous\\b", "Stun Viscous"),
  ("Stan busy\\b", "Stun Billy"),
  ("Stan Seven\\b", "Stun Seven"),
  ("\\bStamina\\b", "Stun Mina"),
  ("Stanyamato\\b", "Stun Yamato"),
  ("Stormwrecker\\b", "Stun Wrecker"),
  ("Stonewraith\\b", "Stun Wraith"),
  ("Sunwraith\\b", "Stun Wraith"),
  ("Stun and Furnace\\b", "Stun Infernus"),
  ("Stun in furnace\\b", "Stun Infernus"),
  ("Stun in Furnace\\b", "Stun Infernus"),
  ("Stun your eyes\\b", "Stun Mirage"),
  ("Stun great talent\\b", "Stun Grey Talon"),
  ("Stun great talon\\b", "Stun Grey Talon"),
  ("Stun holiday\\b", "Stun Holliday"),
  ("Stun Holiday\\b", "Stun Holliday"),
  ("Stun killed\\b", "Stun Kelvin"),
  ("Stun grill\\b", "Stun Krill"),
  ("Stun recker\\b", "Stun Wrecker"),
  ("Stun quill\\b", "Stun Krill"),
  ("Stun dorman\\b", "Stun Doorman"),
  ("Stun hayes\\b", "Stun Haze"),
  ("Stun taco\\b", "Stun Calico"),
  ("Stun meta\\b", "Stun Mina"),
  ("\\bStun Raid\\b", "Stun Wraith"),
  ("\\bStun race\\b", "Stun Wraith"),
  ("\\bStun Race\\b", "Stun Wraith"),
  ("\\bIgnore Raid\\b", "Ignore Wraith"),
  ("\\bIgnore race\\b", "Ignore Wraith"),
  ("under da garage\\b", "under the garage"),
  ("on the breach\\b", "on the bridge"),
  ("Rates on mid\\b", "Wraith\x27s in mid"),
  ("Rates on top of mid\\b", "Wraith\x27s on top of mid"),
  ("Rates on top o\x27 the garage\\b", "Wraith\x27s on top of the garage"),
  ("Rates under the garage\\b", "Wraith\x27s under the garage"),
  ("Rate is missing\\b", "Wraith is missing"),
  ("Race in mid\\b", "Wraith\x27s in mid"),
  ("Race under the garage\\b", "Wraith\x27s under the garage"),
  ("Raids on the roof\\b", "Wraith\x27s on the roof"),
  ("Graphs missing\\b", "Graf\x27s missing"),
  ("Graphs Missing\\b", "Graf\x27s Missing"),
  ("I see Grath\\b", "I see Graf"),
  ("Careful Graph\\b", "Careful, Graf"),
  ("Dorman\x27s on top of the garage\\b", "Doorman\x27s on top of the garage"),
  ("The Dormant on top of Mid\\b", "The Doorman\x27s on top of Mid"),
  ("Torments Under the Garage\\b", "Doorman\x27s under the Garage"),
  ("The Dormin\x27s dead\\b", "The Doorman\x27s dead"),
  ("The Dormin was here\\b", "The Doorman was here"),
  ("The Dormin is almost back\\b", "The Doorman is almost back"),
  ("The Dorman\x27s in Mid\\b", "The Doorman\x27s in Mid"),
  ("The Doman\x27s on the bridge\\b", "The Doorman\x27s on the bridge"),
  ("The Doughman\x27s on the Roof\\b", "The Doorman\x27s on the Roof"),
  ("Check out what the Dolmen bought\\b", "Check out what the Doorman bought"),
  ("Ignore the Dolmen\\b", "Ignore the Doorman"),
  ("Stun Dolmen\\b", "Stun Doorman"),
  ("I\x27m with you, Dorman\\b", "I\x27m with you, Doorman"),
  ("Careful, Dorman\\b", "Careful, Doorman"),
  ("Venera was here\\b", "Venator was here"),
  ("Venera\x27s on the bridge\\b", "Venator\x27s on the bridge"),
  ("Venetus under da garage\\b", "Venator\x27s under the garage"),
  ("Banners in mid\\b", "Venator\x27s in mid"),
  ("Betterless on top of mid\\b", "Venator\x27s on top of mid"),
  ("Stun veneta\\b", "Stun Venator"),
  ("I saw venera\\b", "I saw Venator"),
  ("Careful, fella\\b", "Careful, Venator"),
  ("Catacombs on top of mid\\b", "Calico\x27s on top of mid"),
  ("Dive is on top of mid\\b", "Ivy\x27s on top of mid"),
  ("It is on top of the garage\\b", "Billy\x27s on top of the garage"),
  ("It is on top of mid\\b", "Billy\x27s on top of mid"),
  ("It is under the garage\\b", "Billy\x27s under the garage"),
  ("It is on the bridge\\b", "Billy\x27s on the bridge"),
  ("Pillies on the roof\\b", "Billy\x27s on the roof"),
  ("Fatum\x27s on top of mid\\b", "Fathom\x27s on top of mid"),
  ("Victus on top of mid\\b", "Victor\x27s on top of mid"),
  ("Starting Furnace\\b", "Stun Infernus"),
  ("Done sinclair\\b", "Stun Sinclair"),
  ("Dunraven\\b", "Stun Raven"),
  ("Don\x27t fathom\\b", "Stun Fathom"),
  ("Gun trapper\\b", "Stun Trapper"),
  ("Darn Vyper\\b", "Stun Vyper"),
  ("Startin\x27 Warden\\b", "Stun Warden"),
  ("Stand dynamo\\b", "Stun Dynamo"),
  ("Stan Abrams\\b", "Stun Abrams"),
  ("Stan kelvin\\b", "Stun Kelvin"),
  ("Stan murphy\\b", "Stun Murphy"),
  ("Stan dynamo\\b", "Stun Dynamo"),
  ("Stan mcginnis\\b", "Stun McGinnis"),
  ("Stan ivy\\b", "Stun Ivy"),
  ("Stan billy\\b", "Stun Billy"),
  ("Stan Warden\\b", "Stun Warden"),
  ("Stan Sinclair\\b", "Stun Sinclair"),
  ("Stan yamato\\b", "Stun Yamato"),
  ("Stan se7en\\b", "Stun Seven"),
  ("Stan pockett\\b", "Stun Pocket"),
  ("Stan paradox\\b", "Stun Paradox"),
  ("Stan mcguinness\\b", "Stun McGinnis"),
  ("Stan lush\\b", "Stun Lash"),
  ("Stan holiday\\b", "Stun Holliday"),
  ("(?i)Stan haze\\b", "Stun Haze"),
  ("Stan greytaran\\b", "Stun Grey Talon"),
  ("Stan galico\\b", "Stun Calico"),
  ("Stan clear\\b", "Stun Sinclair"),
  ("Stan Wicca\\b", "Stun Viscous"),
  ("Stan Sandeep\\b", "Stun Mirage"),
  ("Stan McInnes\\b", "Stun McGinnis"),
  ("Stan McGuinness\\b", "Stun McGinnis"),
  ("Stan Krill\\b", "Stun Krill"),
  ("Stan Kermin\\b", "Stun Kelvin"),
  ("Stan Ivey\\b", "Stun Ivy"),
  ("Stan Gigawatt\\b", "Stun Seven"),
  ("Stan Galicko\\b", "Stun Calico"),
  ("Stan Calico\\b", "Stun Calico"),
  ("I saw race\\b", "I saw Wraith"),
  ("I saw Race\\b", "I saw Wraith"),
  ("Race on top of the garage\\b", "Wraith\x27s on top of the garage"),
  ("Just Business Race\\b", "Just business, Wraith"),
  ("Quills on the roof\\b", "Krill\x27s on the roof"),
  ("Quills in mid\\b", "Krill\x27s in mid"),
  ("Grills on a roof\\b", "Krill\x27s on a roof"),
  ("Castle Victory\\b", "Careful, Victor"),
  ("Victory\x27s almost back\\b", "Victor\x27s almost back"),
  ("Victory is dead\\b", "Victor is dead"),
  ("Victory made\\b", "Victor\x27s in mid"),
  ("Pictures missing\\b", "Victor\x27s missing"),
  ("Fixers on top of the garage\\b", "Victor\x27s on top of the garage"),
  ("Victors on top of the garage\\b", "Victor\x27s on top of the garage"),
  ("Victors on the roof\\b", "Victor\x27s on the roof"),
  ("Victors in Mid\\b", "Victor\x27s in Mid"),
  ("^ *Thank you for watching!? *$", ""),
  ("^ *Thanks for watching!? *$", ""),
  ("^ *Please subscribe!? *$", ""),
  ("^ *THANKS FOR WATCHING!? *$", ""),
  ("^ *Thanks For Watching!? *$", ""),
  ("^ *Thank You For Watching!? *$", ""),
  ("^ *\\?\\?+ *$", ""),
  ("Stone the Guinness\\b", "Stun McGinnis"),
  ("Stan McInnes\\b", "Stun McGinnis"),
  ("They took out graph\\b", "They took out Graf"),
  ("I see Graph\\b", "I see Graf"),
  ("Careful graph\\b", "Careful, Graf"),
  ("Creografton\\b", "Stun Graf"),
  ("Let\x27s take out the Dormant\\b", "Let\x27s take out the Doorman"),
  ("Dormant is almost back\\b", "Doorman is almost back"),
  ("Check out what Dormant bought\\b", "Check out what Doorman bought"),
  ("Dormant\x27s on top of the Garage\\b", "Doorman\x27s on top of the Garage"),
  ("Dormant under the garage\\b", "Doorman\x27s under the garage"),
  ("Dormant on top of Mid\\b", "Doorman\x27s on top of Mid"),
  ("Dormant\x27s under the garage\\b", "Doorman\x27s under the garage"),
  ("Dormant\x27s on the roof\\b", "Doorman\x27s on the roof"),
  ("Dormant\x27s on the bridge\\b", "Doorman\x27s on the bridge"),
  ("Dormant\x27s under the Grudge\\b", "Doorman\x27s under the Garage"),
  ("The Dormant\x27s missing\\b", "The Doorman\x27s missing"),
  ("The Dormant\x27s in Mid\\b", "The Doorman\x27s in Mid"),
  ("Dormants in Mid\\b", "Doorman\x27s in Mid"),
  ("Dormants on top of the garage\\b", "Doorman\x27s on top of the garage"),
  ("Minas on top of mid\\b", "Mina\x27s on top of mid"),
  ("I see, Mina\\b", "I see Mina"),
  ("Meta, i can hear ya\\b", "Mina, I can heal ya"),
  ("Slorks and Mid\\b", "Slork\x27s in Mid"),
  ("Race on the bridge\\b", "Wraith\x27s on the bridge"),
  ("Race in Mid\\b", "Wraith\x27s in mid"),
  ("Race on top of the garage\\b", "Wraith\x27s on top of the garage"),
  ("Raced on top of the garage\\b", "Wraith\x27s on top of the garage"),
  ("Race on top of mid\\b", "Wraith\x27s on top of mid"),
  ("Raced on top of mid\\b", "Wraith\x27s on top of mid"),
  ("Race on the roof\\b", "Wraith\x27s on the roof"),
  ("Race neutralized\\b", "Wraith neutralized"),
  ("Careful Race\\b", "Careful, Wraith"),
  ("Careful, Race\\b", "Careful, Wraith"),
  ("Be careful, Race\\b", "Be careful, Wraith"),
  ("Racedown\\b", "Wraith down"),
  ("A joker of race\\b", "They took out Wraith"),
  ("Good lift rate\\b", "Good lift, Wraith"),
  ("And Furnace is on the bridge\\b", "Infernus is on the bridge"),
  ("And Furnace is dead\\b", "Infernus is dead"),
  ("And Furnace is under the garage\\b", "Infernus is under the garage"),
  ("And Furnace is missing\\b", "Infernus is missing"),
  ("And Furnace is almost back\\b", "Infernus is almost back"),
  ("And Furnaces on the Roof\\b", "Infernus is on the roof"),
  ("I\x27m Furnace is dead\\b", "Infernus is dead"),
  ("Sten and Furnace\\b", "Stun Infernus"),
  ("Stunning Furnace\\b", "Stun Infernus"),
  ("Check out WoodenFurnaceBot\\b", "Check out what Infernus bought"),
  ("Page is almost back\\b", "Paige is almost back"),
  ("Pyke is almost back\\b", "Paige is almost back"),
  ("Page is dead\\b", "Paige is dead"),
  ("Page is missing\\b", "Paige is missing"),
  ("Pages in mid\\b", "Paige\x27s in mid"),
  ("Page is on top of the garage\\b", "Paige\x27s on top of the garage"),
  ("Page is on top of bid\\b", "Paige\x27s on top of mid"),
  ("Page is out of the garage\\b", "Paige\x27s under the garage"),
  ("Page is on the roof\\b", "Paige\x27s on the roof"),
  ("Pages on the bridge\\b", "Paige\x27s on the bridge"),
  ("Check out what page, bud\\b", "Check out what Paige bought"),
  ("I saw Page\\b", "I saw Paige"),
  ("I see page\\b", "I see Paige"),
  ("Stun page\\b", "Stun Paige"),
  ("A young paige\\b", "Ignore Paige"),
  ("Paydrews here\\b", "Paige was here"),
  ("They took out page\\b", "They took out Paige"),
  ("Victory is on top of mid\\b", "Victor\x27s on top of mid"),
  ("Victory is in bid\\b", "Victor\x27s in mid"),
  ("Victory is here\\b", "Victor was here"),
  ("Fixers on top of mid\\b", "Victor\x27s on top of mid"),
  ("Figs is under the garage\\b", "Victor\x27s under the garage"),
  ("Stonecolicle\\b", "Stun Calico"),
  ("Stonehage\\b", "Stun Haze"),
  ("Stonefathom\\b", "Stun Fathom"),
  ("Stoneyamato\\b", "Stun Yamato"),
  ("Stonedrifter\\b", "Stun Drifter"),
  ("Stonemina\\b", "Stun Mina"),
  ("Stonegrin\\b", "Stun Krill"),
  ("Stonelash\\b", "Stun Lash"),
  ("Stonetrapper\\b", "Stun Trapper"),
  ("Stonewrecker\\b", "Stun Wrecker"),
  ("Stonewash\\b", "Stun Lash"),
  ("Stonemaker\\b", "Stun Wrecker"),
  ("Stonemn Furnace\\b", "Stun Infernus"),
  ("Stoned bebop\\b", "Stun Bebop"),
  ("Stoned victor\\b", "Stun Victor"),
  ("Stoned heads\\b", "Stun Haze"),
  ("Stoned rapper\\b", "Stun Trapper"),
  ("Stangeist\\b", "Stun Geist"),
  ("Standgeist\\b", "Stun Geist"),
  ("Stanton\\b", "Stun Seven"),
  ("Stanship\\b", "Stun Shiv"),
  ("Standom\\b", "Stun Dynamo"),
  ("Stand the dorm in\\b", "Stun Doorman"),
  ("Stand vindikter\\b", "Stun Vindicta"),
  ("Stannv\u00E5rd\\b", "Stun Warden"),
  ("Stone 7\\b", "Stun Seven"),
  ("Stump Pocket\\b", "Stun Pocket"),
  ("Stop Mirage\\b", "Stun Mirage"),
  ("Startin\x27 Cadence\\b", "Stun Cadence"),
  ("Star Wrecker\\b", "Stun Wrecker"),
  ("Stern Holliday\\b", "Stun Holliday"),
  ("Sturmgeist\\b", "Stun Geist"),
  ("Stonkowicz\\b", "Stun Calico"),
  ("Sun Holliday\\b", "Stun Holliday"),
  ("Start Haze\\b", "Stun Haze"),
  ("Start Infernus\\b", "Stun Infernus"),
  ("Stan McGinnis\\b", "Stun McGinnis"),
  ("Strong Geist\\b", "Stun Geist"),
  ("Stand Mirage\\b", "Stun Mirage"),
  ("Sun Wrecker\\b", "Stun Wrecker"),
  ("Star nivi\\b", "Stun Ivy"),
  ("Stun OV\\b", "Stun Ivy"),
  ("Stun William\\b", "Stun Billy"),
  ("Stern Calico\\b", "Stun Calico"),
  ("St\u0105pibop\\b", "Stun Bebop"),
  ("S\\.t\\.a\\.r\\.s\\.", "Stun Wraith"),
  ("Holladay, I can heal you\\b", "Holliday, I can heal you"),
  ("Careful, Holladay\\b", "Careful, Holliday"),
  ("Alara is almost back\\b", "Holliday is almost back"),
  ("Victory is almost back\\b", "Victor is almost back"),
  ("Victory was here\\b", "Victor was here"),
  ("Victory is mine\\b", "Victor was here"),
  ("Murphy, i can hear you\\b", "Murphy, I can heal you"),
  ("i can hear ya\\b", "I can heal ya"),
  ("Sorry, I can\x27t hear you\\b", "Fathom, I can heal you"),
  ("Life is in mid\\b", "Ivy\x27s in mid"),
  ("Life is on the roof\\b", "Ivy\x27s on the roof"),
  ("Ivies in mid\\b", "Ivy\x27s in mid"),
  ("Ivies in Mid\\b", "Ivy\x27s in Mid"),
  ("Navy\x27s on the bridge\\b", "Ivy\x27s on the bridge"),
  ("I\\.B\\. was here\\b", "Ivy was here"),
  ("Lily was here\\b", "Billy was here"),
  ("Lily is dead\\b", "Billy is dead"),
  ("I saw a belly\\b", "I saw Billy"),
  ("Belly was here\\b", "Billy was here"),
  ("Philly\x27s on top of mid\\b", "Billy\x27s on top of mid"),
  ("Philly\x27s on the Roof\\b", "Billy\x27s on the roof"),
  ("I see William\\b", "I see Billy"),
  ("Williams on top of their garage\\b", "Billy\x27s on top of the garage"),
  ("I see Betty\\b", "I see Billy"),
  ("Let\x27s take out Benny\\b", "Let\x27s take out Billy"),
  ("Ghibli is almost back\\b", "Billy is almost back"),
  ("Careful, Maynard\\b", "Careful, Mina"),
  ("Minos on top of mid\\b", "Mina\x27s on top of mid"),
  ("Minerva\x27s dead\\b", "Mina is dead"),
  ("Minerva\x27s here\\b", "Mina was here"),
  ("Check out what May have bought\\b", "Check out what Mina bought"),
  ("Check out what Mino bought\\b", "Check out what Mina bought"),
  ("I see nina\\b", "I see Mina"),
  ("Nina\x27s on that bridge\\b", "Mina\x27s on the bridge"),
  ("Nina\x27s on the roof\\b", "Mina\x27s on the roof"),
  ("Nina\x27s missing\\b", "Mina\x27s missing"),
  ("Nino\x27s here\\b", "Mina was here"),
  ("Meet us on the bridge\\b", "Mina\x27s on the bridge"),
  ("Meet us in Mid\\b", "Mina\x27s in mid"),
  ("Minis on top of the garage\\b", "Mina\x27s on top of the garage"),
  ("Menu\x27s on top of da garage\\b", "Mina\x27s on top of the garage"),
  ("Minus end mid\\b", "Mina\x27s in mid"),
  ("Miners in Mid\\b", "Mina\x27s in mid"),
  ("Mid is in mid\\b", "Mina\x27s in mid"),
  ("Meat is missing\\b", "Mina is missing"),
  ("Mater is here\\b", "Mina was here"),
  ("Let\x27s take out Bucket\\b", "Let\x27s take out Pocket"),
  ("Puckett is in mid\\b", "Pocket is in mid"),
  ("Puckett is dead\\b", "Pocket is dead"),
  ("Buckets on top of the garage\\b", "Pocket\x27s on top of the garage"),
  ("Careful, Bucket\\b", "Careful, Pocket"),
  ("Harkin is almost back\\b", "Pocket is almost back"),
  ("Puck is dead\\b", "Pocket is dead"),
  ("Target reveal you\\b", "Pocket, I can heal you"),
  ("Check out what BucketBot\\b", "Check out what Pocket bought"),
  ("Guys, it\x27s on top of the garage\\b", "Geist\x27s on top of the garage"),
  ("Guys, it\x27s just on the roof\\b", "Geist is on the roof"),
  ("Check out what guys bought\\b", "Check out what Geist bought"),
  ("Guys, he\x27s almost back\\b", "Geist is almost back"),
  ("I\x27m with you guys\\b", "I\x27m with you, Geist"),
  ("Guys, it\x27s on the roof\\b", "Geist is on the roof"),
  ("Guys, it\x27s on the bridge\\b", "Geist is on the bridge"),
  ("Gus missing\\b", "Geist missing"),
  ("Geis in Mid\\b", "Geist in mid"),
  ("Careful, guys\\b", "Careful, Geist"),
  ("Guys, under the garage\\b", "Geist under the garage"),
  ("The Guinness was here\\b", "McGinnis was here"),
  ("The Guinness is dead\\b", "McGinnis is dead"),
  ("A Guinness is missing\\b", "McGinnis is missing"),
  ("I saw him in Guinness\\b", "I saw McGinnis"),
  ("McKinnis is in mid\\b", "McGinnis is in mid"),
  ("The Guinness is under the garage\\b", "McGinnis is under the garage"),
  ("My Guinness is missing\\b", "McGinnis is missing"),
  ("Mark Guinness is dead\\b", "McGinnis is dead"),
  ("Ignore Mark Guinness\\b", "Ignore McGinnis"),
  ("Care for Mark Guinness\\b", "Careful, McGinnis"),
  ("Great talents in mid\\b", "Grey Talon\x27s in mid"),
  ("Kraytalan is almost back\\b", "Grey Talon is almost back"),
  ("Great talent\x27s missing\\b", "Grey Talon\x27s missing"),
  ("Great talents on top of the garage\\b", "Grey Talon\x27s on top of the garage"),
  ("I saw great talent\\b", "I saw Grey Talon"),
  ("I see great talent\\b", "I see Grey Talon"),
  ("Great Talent is almost back\\b", "Grey Talon is almost back"),
  ("Great talent\x27s under the garage\\b", "Grey Talon\x27s under the garage"),
  ("Great talent\x27s on the roof\\b", "Grey Talon\x27s on the roof"),
  ("Great talent on the bridge\\b", "Grey Talon\x27s on the bridge"),
  ("Great talents on top of me\\b", "Grey Talon\x27s on top of mid"),
  ("Care for bed of dogs\\b", "Careful, Paradox"),
  ("Careful pendogs\\b", "Careful, Paradox"),
  ("Let\x27s take out Peridox\\b", "Let\x27s take out Paradox"),
  ("Last was here\\b", "Lash was here"),
  ("Lars is on the bridge\\b", "Lash is on the bridge"),
  ("Glasses on top of mid\\b", "Lash\x27s on top of mid"),
  ("Let\x27s take out Lush\\b", "Let\x27s take out Lash"),
  ("Lush, I can heal you\\b", "Lash, I can heal you"),
  ("Lush is almost back\\b", "Lash is almost back"),
  ("Careful, Lush\\b", "Careful, Lash"),
  ("Lush in mid\\b", "Lash in mid"),
  ("Last is in mid\\b", "Lash is in mid"),
  ("Nash is on top of the garage\\b", "Lash is on top of the garage"),
  ("Nash, I can heal you\\b", "Lash, I can heal you"),
  ("Careful, Nash\\b", "Careful, Lash"),
  ("Laszlo\x27s here\\b", "Lash was here"),
  ("Careful, Laz\\b", "Careful, Lash"),
  ("Check out what Handsome bought\\b", "Check out what Shiv bought"),
  ("I saw a sheep\\b", "I saw Shiv"),
  ("Careful, Siv\\b", "Careful, Shiv"),
  ("She\x27s in need\\b", "Shiv\x27s in mid"),
  ("Shibu\x27s here\\b", "Shiv was here"),
  ("Shave is dead\\b", "Shiv is dead"),
  ("Let\x27s take out SHIB\\b", "Let\x27s take out Shiv"),
  ("She\x27s on top of me\\b", "Shiv\x27s on top of mid"),
  ("Sheev\x27s missing\\b", "Shiv\x27s missing"),
  ("Ships on the bridge\\b", "Shiv\x27s on the bridge"),
  ("Shifts on the roof\\b", "Shiv\x27s on the roof"),
  ("Shiff is almost back\\b", "Shiv is almost back"),
  ("Careful, Sheath\\b", "Careful, Shiv"),
  ("Careful, shibs\\b", "Careful, Shiv"),
  ("Jim\x27s under the garage\\b", "Shiv\x27s under the garage"),
  ("Sibs on the roof\\b", "Shiv\x27s on the roof"),
  ("Ships on top of the garage\\b", "Shiv\x27s on top of the garage"),
  ("Shibi\x27s out there\\b", "Shiv\x27s out there"),
  ("Sibs on the bridge\\b", "Shiv\x27s on the bridge"),
  ("Chef, I can heal you\\b", "Shiv, I can heal you"),
  ("D-Bop is almost back\\b", "Bebop is almost back"),
  ("Be rough, submit\\b", "Bebop\x27s in mid"),
  ("Let\x27s take out B-Bomb\\b", "Let\x27s take out Bebop"),
  ("Beats on the roof\\b", "Bebop\x27s on the roof"),
  ("Check out what people bought\\b", "Check out what Bebop bought"),
  ("The above is missing\\b", "Bebop is missing"),
  ("Careful, D-Bob\\b", "Careful, Bebop"),
  ("Peeps on top of me\\b", "Bebop\x27s on top of mid"),
  ("I saw a beeba\\b", "I saw Bebop"),
  ("I saw Beavoth\\b", "I saw Bebop"),
  ("Peevos and meat\\b", "Bebop\x27s in mid"),
  ("I saw a B-Bomb\\b", "I saw Bebop"),
  ("Pbop\x27s on the bridge\\b", "Bebop\x27s on the bridge"),
  ("I see peanut\\b", "I see Bebop"),
  ("Careful beam up\\b", "Careful, Bebop"),
  ("V-Bucks on top of the garage\\b", "Bebop\x27s on top of the garage"),
  ("V-Bombs are under the garage\\b", "Bebop\x27s under the garage"),
  ("The Abattoir\x27s dead\\b", "Yamato\x27s dead"),
  ("Yamcha\x27s on the bridge\\b", "Yamato\x27s on the bridge"),
  ("Jabbatos in mid\\b", "Yamato\x27s in mid"),
  ("Carefully, Hamato\\b", "Careful, Yamato"),
  ("I saw yamachu\\b", "I saw Yamato"),
  ("The Avatar\x27s on top of the carriage\\b", "Yamato\x27s on top of the garage"),
  ("I see Yomato\\b", "I see Yamato"),
  ("The avatars are to breach\\b", "Yamato\x27s on the bridge"),
  ("I see y\x27all, Mato\\b", "I see Yamato"),
  ("Check out what Yom Tobboth\\b", "Check out what Yamato bought"),
  ("Germitals on top of med\\b", "Yamato\x27s on top of mid"),
  ("Galmato is here\\b", "Yamato was here"),
  ("Gamato\x27s in mid\\b", "Yamato\x27s in mid"),
  ("Careful yamacho\\b", "Careful, Yamato"),
  ("Trepper is dead\\b", "Trapper is dead"),
  ("Trap us under the garage\\b", "Trapper\x27s under the garage"),
  ("Trevor\x27s almost back\\b", "Trapper\x27s almost back"),
  ("Trap us on the roof\\b", "Trapper\x27s on the roof"),
  ("Check out what rapper bought\\b", "Check out what Trapper bought"),
  ("Captain on top of the garage\\b", "Trapper\x27s on top of the garage"),
  ("Trampo is here\\b", "Trapper was here"),
  ("Ignore drapper\\b", "Ignore Trapper"),
  ("Trap us on the bridge\\b", "Trapper\x27s on the bridge"),
  ("Stuntropper\\b", "Stun Trapper")
]

end AutoFix

/-!
Python string helpers used by the scripts: strip, whitespace split
token count, and re.escape.
-/

/-- str.strip with no argument: drop leading and trailing whitespace. -/
def pyStrip (t : List Char) : List Char :=
  ((t.dropWhile pyIsSpace).reverse.dropWhile pyIsSpace).reverse

/-- Token counter for len(text.split()): counts maximal nonblank runs. -/
def splitCountAux : Bool → List Char → Nat
  | _, [] => 0
  | inWord, c :: rest =>
    if pyIsSpace c then splitCountAux false rest
    else (if inWord then 0 else 1) + splitCountAux true rest

/-- len(text.split()) for the default whitespace split. -/
def pySplitCount (t : List Char) : Nat :=
  splitCountAux false t

/-- re.escape on a rule key.  Every key in the tables is made of ASCII
letters, on which escaping is the identity; non-alphanumerics would be
backslash-escaped. -/
def reEscape (s : String) : List Char :=
  s.data.foldr
    (fun c acc => if c.isAlphanum || c == '_' then c :: acc else '\\' :: c :: acc)
    []

/-- Loop of re.match calls over a pattern list, as the classifier
performs it: compile and match one pattern at a time, stopping at the
first success; a pattern that fails to compile raises (none) only when
the loop reaches it. -/
def matchAny (icFlag : Bool) : List String → List Char → Option Bool
  | [], _ => some false
  | p :: ps, t =>
    match pymatch icFlag p t with
    | none => none
    | some true => some true
    | some false => matchAny icFlag ps t

/-- Loop of re.search calls over a pattern list, same discipline. -/
def searchAny (icFlag : Bool) : List String → List Char → Option Bool
  | [], _ => some false
  | p :: ps, t =>
    match pysearch icFlag p t with
    | none => none
    | some true => some true
    | some false => searchAny icFlag ps t

namespace Screams

/-- is_hallucinated of fixHallucinatedScreams.py (lines 167 to 196):
empty and all-blank text is kept; the allow list (anchored match,
IGNORECASE) short-circuits to keep; the block list (search,
IGNORECASE) short-circuits to clear; then the punctuation-only match
and the more-than-five-token test.  none models an uncaught re.error:
two block-list patterns do not compile, so any text that reaches them
unmatched raises. -/
def is_hallucinated (text : String) : Option Bool :=
  if text.data.isEmpty then some false
  else
    let t := pyStrip text.data
    if t.isEmpty then some false
    else
      match matchAny true VALID_SCREAM_PATTERNS t with
      | none => none
      | some true => some false
      | some false =>
        match searchAny true HALLUCINATION_PATTERNS t with
        | none => none
        | some true => some true
        | some false =>
          match pymatch false PUNCT_ONLY_RE t with
          | none => none
          | some true => some true
          | some false =>
            if pySplitCount t > 5 then some true else some false

/-- should_process_file (lines 199 to 204): re.search of each file
category pattern against the filename, true on the first hit. -/
def should_process_file (filename : String) : Option Bool :=
  searchAny false NONVERBAL_FILE_PATTERNS filename.data

end Screams

namespace AutoFix

/-- fix_text of autoFixWhisperErrors.py (lines 773 to 787): every
phrase rule is applied by re.sub in declaration order, each to the
cumulative output of its predecessors; then every character-name rule
as a case-insensitive whole-word substitution.  The filename argument
of the source is unused there and omitted.  none would model a raised
re.error; every pattern in these two tables compiles. -/
def fix_text (text : String) : Option String :=
  match List.foldlM (fun t pr => pysub false pr.1 pr.2 t) text.data
      PHRASE_CORRECTIONS with
  | none => none
  | some t1 =>
    match List.foldlM
        (fun t kv =>
          pysub true (String.mk ('\\' :: 'b' :: reEscape kv.1 ++ ['\\', 'b'])) kv.2 t)
        t1 CHARACTER_NAME_CORRECTIONS with
    | none => none
    | some t2 => some (String.mk t2)

end AutoFix

/-!
Model of loaded JSON values (the result of json.load), and of the
fragment of Python dynamic semantics the two process_json_file
functions rely on.  A Python bool is a subtype of int, so booleans
pass the isinstance number and integer checks of the validator.
Floats only ever meet isinstance tests and truthiness here, so they
are carried as an opaque integer payload (zero meaning a falsy 0.0).
-/

/-- A loaded JSON value. -/
inductive JValue where
  | jnull
  | jbool (b : Bool)
  | jint (n : Int)
  | jfloat (payload : Int)
  | jstr (s : String)
  | jarr (elems : List JValue)
  | jobj (fields : List (String × JValue))
  deriving Repr

mutual

/-- Structural equality of values.  Where the processors use it (list
membership tests against a string key) it agrees with Python ==, which
is False between a str and any non-str value. -/
def jvalBeq : JValue → JValue → Bool
  | JValue.jnull, JValue.jnull => true
  | JValue.jbool a, JValue.jbool b => a == b
  | JValue.jint a, JValue.jint b => a == b
  | JValue.jfloat a, JValue.jfloat b => a == b
  | JValue.jstr a, JValue.jstr b => a == b
  | JValue.jarr a, JValue.jarr b => jvalListBeq a b
  | JValue.jobj a, JValue.jobj b => jvalFieldsBeq a b
  | _, _ => false

/-- Pointwise equality of value lists. -/
def jvalListBeq : List JValue → List JValue → Bool
  | [], [] => true
  | a :: as, b :: bs => jvalBeq a b && jvalListBeq as bs
  | _, _ => false

/-- Pointwise equality of field lists. -/
def jvalFieldsBeq : List (String × JValue) → List (String × JValue) → Bool
  | [], [] => true
  | a :: as, b :: bs => (a.1 == b.1 && jvalBeq a.2 b.2) && jvalFieldsBeq as bs
  | _, _ => false

end

instance : BEq JValue := ⟨jvalBeq⟩

/-- Field lookup in an object (first binding wins, as json.load never
produces duplicate keys). -/
def jget (fields : List (String × JValue)) (k : String) : Option JValue :=
  match fields with
  | [] => none
  | kv :: rest => if kv.1 == k then some kv.2 else jget rest k

/-- Replace the value bound to a key (dict item assignment on a
present key). -/
def jsetFields (fields : List (String × JValue)) (k : String) (v : JValue) :
    List (String × JValue) :=
  match fields with
  | [] => []
  | kv :: rest =>
    if kv.1 == k then (kv.1, v) :: rest else kv :: jsetFields rest k v

/-- Item assignment on an object value; other shapes are unreachable
where this is used. -/
def jset (x : JValue) (k : String) (v : JValue) : JValue :=
  match x with
  | JValue.jobj fields => JValue.jobj (jsetFields fields k v)
  | other => other

/-- Python truthiness of a loaded JSON value. -/
def pyTruthy : JValue → Bool
  | JValue.jnull => false
  | JValue.jbool b => b
  | JValue.jint n => n != 0
  | JValue.jfloat m => m != 0
  | JValue.jstr s => !s.data.isEmpty
  | JValue.jarr l => !l.isEmpty
  | JValue.jobj f => !f.isEmpty

/-- isinstance(x, str). -/
def isStr : JValue → Bool
  | JValue.jstr _ => true
  | _ => false

/-- isinstance(x, (int, float)); True and False are ints in Python. -/
def isNumber : JValue → Bool
  | JValue.jint _ => true
  | JValue.jfloat _ => true
  | JValue.jbool _ => true
  | _ => false

/-- isinstance(x, int); a bool is an int in Python. -/
def isInteger : JValue → Bool
  | JValue.jint _ => true
  | JValue.jbool _ => true
  | _ => false

/-- isinstance(x, list). -/
def isList : JValue → Bool
  | JValue.jarr _ => true
  | _ => false

/-- isinstance(x, dict). -/
def isDict : JValue → Bool
  | JValue.jobj _ => true
  | _ => false

/-- Substring test on character lists (the str `in` operator). -/
def listContains (needle hay : List Char) : Bool :=
  if needle.isPrefixOf hay then true
  else
    match hay with
    | [] => needle.isEmpty
    | _ :: rest => listContains needle rest

/-- The Python expression `key in x` for a string key: dict key test,
list membership, substring test on a string; a TypeError (none) on the
remaining shapes. -/
def pyContainsStr (key : String) : JValue → Option Bool
  | JValue.jobj fields => some (jget fields key).isSome
  | JValue.jarr elems => some (elems.contains (JValue.jstr key))
  | JValue.jstr s => some (listContains key.data s.data)
  | _ => none

/-- The Python expression `x[key]` for a string key: dict indexing
(KeyError on a missing key and TypeError on non-dicts both map to
none). -/
def pyIndexStr (x : JValue) (key : String) : Option JValue :=
  match x with
  | JValue.jobj fields => jget fields key
  | _ => none

/-- The Python statement `for v in x`: lists yield their elements,
strings their characters as one-character strings, dicts their keys;
the remaining shapes raise TypeError (none). -/
def pyIterate : JValue → Option (List JValue)
  | JValue.jarr elems => some elems
  | JValue.jstr s => some (s.data.map (fun c => JValue.jstr (String.mk [c])))
  | JValue.jobj fields => some (fields.map (fun kv => JValue.jstr kv.1))
  | _ => none

namespace VJson

/-- is_valid_voiceline of validate_json.py (lines 20 to 77): field
presence and type checks in declaration order, then per-segment checks
in sequence order with required fields in start, end, text, part
order; the first violation is the returned message. -/
def checkVoicelineSegments (idx : Nat) : List JValue → Bool × String
  | [] => (true, "Valid voiceline structure")
  | seg :: rest =>
    match seg with
    | JValue.jobj sf =>
      if (jget sf "start").isNone then
        (false, "Segment " ++ toString idx ++ " missing required field \x27start\x27")
      else if (jget sf "end").isNone then
        (false, "Segment " ++ toString idx ++ " missing required field \x27end\x27")
      else if (jget sf "text").isNone then
        (false, "Segment " ++ toString idx ++ " missing required field \x27text\x27")
      else if (jget sf "part").isNone then
        (false, "Segment " ++ toString idx ++ " missing required field \x27part\x27")
      else if !isNumber ((jget sf "start").getD JValue.jnull) then
        (false, "Segment " ++ toString idx ++ " \x27start\x27 must be a number")
      else if !isNumber ((jget sf "end").getD JValue.jnull) then
        (false, "Segment " ++ toString idx ++ " \x27end\x27 must be a number")
      else if !isStr ((jget sf "text").getD JValue.jnull) then
        (false, "Segment " ++ toString idx ++ " \x27text\x27 must be a string")
      else if !isInteger ((jget sf "part").getD JValue.jnull) then
        (false, "Segment " ++ toString idx ++ " \x27part\x27 must be an integer")
      else checkVoicelineSegments (idx + 1) rest
    | _ => (false, "Segment " ++ toString idx ++ " must be a dictionary")

/-- Top level of is_valid_voiceline. -/
def is_valid_voiceline (fields : List (String × JValue)) : Bool × String :=
  match jget fields "voiceline_id" with
  | none => (false, "Missing \x27voiceline_id\x27 field")
  | some vid =>
    if !isStr vid then (false, "\x27voiceline_id\x27 must be a string")
    else
      match jget fields "timestamp" with
      | none => (false, "Missing \x27timestamp\x27 field")
      | some ts =>
        if !isStr ts then (false, "\x27timestamp\x27 must be a string")
        else
          match jget fields "segments" with
          | none => (false, "Missing \x27segments\x27 field")
          | some segs =>
            match segs with
            | JValue.jarr elems => checkVoicelineSegments 0 elems
            | _ => (false, "\x27segments\x27 must be a list")

/-- Per-segment checks of is_valid_simple_file (lines 80 to 126):
required fields in start, end, text order, no part field. -/
def checkSimpleSegments (idx : Nat) : List JValue → Bool × String
  | [] => (true, "Valid simple file structure")
  | seg :: rest =>
    match seg with
    | JValue.jobj sf =>
      if (jget sf "start").isNone then
        (false, "Segment " ++ toString idx ++ " missing required field \x27start\x27")
      else if (jget sf "end").isNone then
        (false, "Segment " ++ toString idx ++ " missing required field \x27end\x27")
      else if (jget sf "text").isNone then
        (false, "Segment " ++ toString idx ++ " missing required field \x27text\x27")
      else if !isNumber ((jget sf "start").getD JValue.jnull) then
        (false, "Segment " ++ toString idx ++ " \x27start\x27 must be a number")
      else if !isNumber ((jget sf "end").getD JValue.jnull) then
        (false, "Segment " ++ toString idx ++ " \x27end\x27 must be a number")
      else if !isStr ((jget sf "text").getD JValue.jnull) then
        (false, "Segment " ++ toString idx ++ " \x27text\x27 must be a string")
      else checkSimpleSegments (idx + 1) rest
    | _ => (false, "Segment " ++ toString idx ++ " must be a dictionary")

/-- Top level of is_valid_simple_file. -/
def is_valid_simple_file (fields : List (String × JValue)) : Bool × String :=
  match jget fields "file" with
  | none => (false, "Missing \x27file\x27 field")
  | some fv =>
    if !isStr fv then (false, "\x27file\x27 must be a string")
    else
      match jget fields "segments" with
      | none => (false, "Missing \x27segments\x27 field")
      | some segs =>
        match segs with
        | JValue.jarr elems => checkSimpleSegments 0 elems
        | _ => (false, "\x27segments\x27 must be a list")

/-- validate_json_file (lines 129 to 156) from the point where the
JSON document has been loaded: root-object check, then dispatch on the
identifying field. -/
def validate_json_file (data : JValue) : Bool × String :=
  match data with
  | JValue.jobj fields =>
    if (jget fields "voiceline_id").isSome then is_valid_voiceline fields
    else if (jget fields "file").isSome then is_valid_simple_file fields
    else (false, "Unknown JSON structure - does not match any expected format")
  | _ => (false, "JSON root must be an object")

end VJson

/-!
The per-record processing loops of the two scripts
(autoFixWhisperErrors.py lines 790 to 822, fixHallucinatedScreams.py
lines 207 to 241), modelled from the point where json.load has
produced a value: the change log (original, fixed) per rewritten
segment, the modified flag, and the resulting record.  File reading,
the change-log file path entry, and the conditional json.dump are
outside the model; whether a write would occur is exactly
`modified && not dryRun` (see wouldWrite).  none models an uncaught
exception: iterating a non-iterable segments value (TypeError),
indexing a non-dict segment that claims to contain the key
(TypeError), rewriting a non-string text (TypeError inside re.sub,
AttributeError inside strip), or a re.error propagating out of
is_hallucinated.
-/

namespace AutoFix

/-- One iteration of the corrector loop body over a segment value. -/
def processSegment (seg : JValue) :
    Option (List (String × String) × Bool × JValue) :=
  match pyContainsStr "text" seg with
  | none => none
  | some false => some ([], false, seg)
  | some true =>
    match pyIndexStr seg "text" with
    | some (JValue.jstr original) =>
      (match fix_text original with
       | none => none
       | some fixed =>
         if fixed != original then
           some ([(original, fixed)], true, jset seg "text" (JValue.jstr fixed))
         else some ([], false, seg))
    | _ => none

/-- The corrector loop over the iterated segments. -/
def processSegments : List JValue →
    Option (List (String × String) × Bool × List JValue)
  | [] => some ([], false, [])
  | seg :: rest =>
    match processSegment seg with
    | none => none
    | some (ch1, m1, seg1) =>
      match processSegments rest with
      | none => none
      | some (ch2, m2, rest1) => some (ch1 ++ ch2, m1 || m2, seg1 :: rest1)

/-- process_json_file of autoFixWhisperErrors.py on a loaded record.
Iterating a list mutates the record in place; iterating a string or a
dict yields fresh values, so the record is returned unchanged there
(and no such iteration can ever rewrite anything). -/
def process_json_file (data : JValue) :
    Option (List (String × String) × Bool × JValue) :=
  match pyContainsStr "segments" data with
  | none => none
  | some false => some ([], false, data)
  | some true =>
    match pyIndexStr data "segments" with
    | none => none
    | some segsVal =>
      match pyIterate segsVal with
      | none => none
      | some elems =>
        match processSegments elems with
        | none => none
        | some (ch, m, elems2) =>
          match segsVal with
          | JValue.jarr _ => some (ch, m, jset data "segments" (JValue.jarr elems2))
          | _ => some (ch, m, data)

end AutoFix

namespace Screams

/-- One iteration of the clearing loop body over a segment value.
When the text is not a string, `if not original` keeps falsy values
without touching them, while a truthy non-string raises inside
is_hallucinated (strip on a non-string). -/
def processSegment (seg : JValue) :
    Option (List (String × String) × Bool × JValue) :=
  match pyContainsStr "text" seg with
  | none => none
  | some false => some ([], false, seg)
  | some true =>
    match pyIndexStr seg "text" with
    | some (JValue.jstr original) =>
      (match is_hallucinated original with
       | none => none
       | some true =>
         some ([(original, "")], true, jset seg "text" (JValue.jstr ""))
       | some false => some ([], false, seg))
    | some other => if pyTruthy other then none else some ([], false, seg)
    | none => none

/-- The clearing loop over the iterated segments. -/
def processSegments : List JValue →
    Option (List (String × String) × Bool × List JValue)
  | [] => some ([], false, [])
  | seg :: rest =>
    match processSegment seg with
    | none => none
    | some (ch1, m1, seg1) =>
      match processSegments rest with
      | none => none
      | some (ch2, m2, rest1) => some (ch1 ++ ch2, m1 || m2, seg1 :: rest1)

/-- process_json_file of fixHallucinatedScreams.py on a loaded record:
the filename gate runs first and returns an empty change log without
touching the record; then the same loop shape as the corrector, with
is_hallucinated deciding and the empty string as replacement. -/
def process_json_file (filename : String) (data : JValue) :
    Option (List (String × String) × Bool × JValue) :=
  match should_process_file filename with
  | none => none
  | some false => some ([], false, data)
  | some true =>
    match pyContainsStr "segments" data with
    | none => none
    | some false => some ([], false, data)
    | some true =>
      match pyIndexStr data "segments" with
      | none => none
      | some segsVal =>
        match pyIterate segsVal with
        | none => none
        | some elems =>
          match processSegments elems with
          | none => none
          | some (ch, m, elems2) =>
            match segsVal with
            | JValue.jarr _ => some (ch, m, jset data "segments" (JValue.jarr elems2))
            | _ => some (ch, m, data)

end Screams

/-- Persistence decision shared by both scripts: a record is written
back exactly when it was modified and the run is not a dry run. -/
def wouldWrite (dryRun modified : Bool) : Bool :=
  modified && !dryRun

/-!
Helper lemmas: behaviour of the search loop when every pattern in the
list compiles, totality of fix_text (every pattern of its two tables
compiles), and dict update with an unchanged value.
-/

/-- A search loop over patterns that all yield an answer returns an
answer. -/
theorem searchAny_isSome (icFlag : Bool) (ps : List String) (t : List Char)
    (h : ∀ p ∈ ps, (pysearch icFlag p t).isSome) :
    (searchAny icFlag ps t).isSome = true := by
  induction ps with
  | nil => rfl
  | cons p rest ih =>
    obtain ⟨b, hb⟩ := Option.isSome_iff_exists.mp (h p (List.mem_cons_self p rest))
    unfold searchAny
    rw [hb]
    cases b with
    | true => rfl
    | false => exact ih (fun q hq => h q (List.mem_cons_of_mem p hq))

/-- A search loop over patterns that all yield an answer reports a hit
exactly when some pattern of the list hits. -/
theorem searchAny_some_true_iff (icFlag : Bool) (ps : List String) (t : List Char)
    (h : ∀ p ∈ ps, (pysearch icFlag p t).isSome) :
    (searchAny icFlag ps t = some true ↔
      ∃ p ∈ ps, pysearch icFlag p t = some true) := by
  induction ps with
  | nil => simp [searchAny]
  | cons p rest ih =>
    obtain ⟨b, hb⟩ := Option.isSome_iff_exists.mp (h p (List.mem_cons_self p rest))
    have ihr := ih (fun q hq => h q (List.mem_cons_of_mem p hq))
    unfold searchAny
    rw [hb]
    cases b with
    | true =>
      simp only [true_iff]
      exact ⟨p, List.mem_cons_self p rest, hb⟩
    | false =>
      rw [ihr]
      constructor
      · rintro ⟨q, hq, hqt⟩
        exact ⟨q, List.mem_cons_of_mem p hq, hqt⟩
      · rintro ⟨q, hq, hqt⟩
        rcases List.mem_cons.mp hq with rfl | hq2
        · rw [hb] at hqt
          exact absurd hqt (by simp)
        · exact ⟨q, hq2, hqt⟩

/-- pysub answers whenever its pattern compiles. -/
theorem pysub_isSome (icFlag : Bool) (p repl : String) (t : List Char)
    (h : (compileRx p).isSome) : (pysub icFlag p repl t).isSome := by
  obtain ⟨pr, hpr⟩ := Option.isSome_iff_exists.mp h
  unfold pysub
  rw [hpr]
  rfl

/-- A fold of Option-valued steps that always answer answers. -/
theorem foldlM_isSome {β : Type} (f : List Char → β → Option (List Char))
    (l : List β) :
    ∀ init : List Char, (∀ b ∈ l, ∀ t, (f t b).isSome) →
      (List.foldlM f init l).isSome := by
  induction l with
  | nil => intro init h; rfl
  | cons b rest ih =>
    intro init h
    obtain ⟨t1, ht1⟩ :=
      Option.isSome_iff_exists.mp (h b (List.mem_cons_self b rest) init)
    rw [List.foldlM_cons, ht1]
    exact ih t1 (fun q hq t => h q (List.mem_cons_of_mem b hq) t)

set_option maxRecDepth 100000 in
/-- Every phrase pattern of the corrector compiles. -/
theorem phrase_patterns_compile :
    AutoFix.PHRASE_CORRECTIONS.all (fun pr => (compileRx pr.1).isSome) = true := by
  decide

set_option maxRecDepth 100000 in
/-- Every whole-word character-name pattern of the corrector compiles. -/
theorem name_patterns_compile :
    AutoFix.CHARACTER_NAME_CORRECTIONS.all
      (fun kv =>
        (compileRx (String.mk ('\\' :: 'b' :: reEscape kv.1 ++ ['\\', 'b']))).isSome)
      = true := by
  decide

/-- fix_text answers on every input: both of its tables compile. -/
theorem fix_text_total (s : String) : (AutoFix.fix_text s).isSome := by
  have h1 : (List.foldlM (fun t pr => pysub false pr.1 pr.2 t) s.data
      AutoFix.PHRASE_CORRECTIONS).isSome := by
    refine foldlM_isSome _ _ _ (fun pr hpr t => ?_)
    exact pysub_isSome false pr.1 pr.2 t
      (List.all_eq_true.mp phrase_patterns_compile pr hpr)
  obtain ⟨t1, ht1⟩ := Option.isSome_iff_exists.mp h1
  have h2 : (List.foldlM
      (fun t kv =>
        pysub true (String.mk ('\\' :: 'b' :: reEscape kv.1 ++ ['\\', 'b'])) kv.2 t)
      t1 AutoFix.CHARACTER_NAME_CORRECTIONS).isSome := by
    refine foldlM_isSome _ _ _ (fun kv hkv t => ?_)
    exact pysub_isSome true _ kv.2 t
      (List.all_eq_true.mp name_patterns_compile kv hkv)
  obtain ⟨t2, ht2⟩ := Option.isSome_iff_exists.mp h2
  unfold AutoFix.fix_text
  simp only [ht1, ht2]
  rfl

/-- Re-binding a dict key to the value it already holds is the
identity. -/
theorem jsetFields_self (fields : List (String × JValue)) (k : String)
    (v : JValue) (h : jget fields k = some v) :
    jsetFields fields k v = fields := by
  induction fields with
  | nil => simp [jget] at h
  | cons kv rest ih =>
    unfold jget at h
    unfold jsetFields
    by_cases hk : (kv.1 == k) = true
    · rw [hk] at h
      simp only [if_pos hk]
      have : kv.2 = v := by
        injection h with h2
      rw [← this]
    · rw [Bool.not_eq_true] at hk
      rw [hk] at h
      simp only [hk, Bool.false_eq_true, if_false]
      rw [ih h]

/-!
Claim theorems.  One theorem per claim of the specification review,
plus witnesses for the theorems that carry hypotheses.
-/

set_option maxRecDepth 400000

set_option maxHeartbeats 4000000

/-- Claim C1: the classifier checks the allow list before the block
list and the first match wins: a category-eligible "Thank you for
watching!" is hallucinated (a block-list pattern finds it as an
unanchored case-insensitive substring) while "Ahhh!" is kept (an
anchored allow-list vocalization pattern short-circuits first). -/
theorem C1_allowlist_before_blocklist :
    Screams.is_hallucinated "Thank you for watching!" = some true ∧
    Screams.is_hallucinated "Ahhh!" = some false :=
  ⟨rfl, rfl⟩

/-- Claim C4 is wrong about the code (code bug): a trimmed, non-empty
text that matches no allow-list pattern and no block-list pattern
before position 54 never reaches the structural fallbacks, because the
block-list loop hits a mojibake-corrupted character class whose range
is descending, and re.compile raises re.error (modelled as none).  The
seven-token plain-English sentence of the claim, and a
punctuation-only text, both raise instead of classifying; the block
list does contain patterns that fail to compile. -/
theorem C4_structural_fallbacks_unreachable :
    Screams.is_hallucinated "a b c d e f g" = none ∧
    Screams.is_hallucinated ";" = none ∧
    Screams.HALLUCINATION_PATTERNS.any (fun p => (compileRx p).isNone) = true :=
  ⟨rfl, rfl, by decide⟩

/-- Claim C5: a text whose trim is empty, the empty string included,
is never classified as a hallucination. -/
theorem C5_blank_text_kept (s : String) (h : pyStrip s.data = []) :
    Screams.is_hallucinated s = some false := by
  unfold Screams.is_hallucinated
  by_cases hd : s.data.isEmpty
  · simp [hd]
  · simp [hd, h]

/-- Witness for C5 at the empty string and a blank string. -/
theorem C5_blank_text_kept_witness :
    Screams.is_hallucinated "" = some false ∧
    Screams.is_hallucinated " " = some false :=
  ⟨C5_blank_text_kept "" rfl, C5_blank_text_kept " " rfl⟩

/-- Claim C2 is right and the rule tables violate it (code bug): the
corrector is not idempotent.  On "Stone Viscus" one pass yields
"Stone Viscous" (only the name rule Viscus to Viscous fires), and a
second pass rewrites that to "Stun Viscous" (the phrase rule for
"Stone Viscous" now matches), so correct composed with itself differs
from correct — the rule-pair defect the specification says must be
flagged. -/
theorem C2_corrector_not_idempotent :
    AutoFix.fix_text "Stone Viscus" = some "Stone Viscous" ∧
    AutoFix.fix_text "Stone Viscous" = some "Stun Viscous" ∧
    Option.bind (AutoFix.fix_text "Stone Viscus") AutoFix.fix_text ≠
      AutoFix.fix_text "Stone Viscus" := by
  have h1 : AutoFix.fix_text "Stone Viscus" = some "Stone Viscous" := rfl
  have h2 : AutoFix.fix_text "Stone Viscous" = some "Stun Viscous" := rfl
  refine ⟨h1, h2, ?_⟩
  rw [h1]
  show AutoFix.fix_text "Stone Viscous" ≠ some "Stone Viscous"
  rw [h2]
  decide

/-- Claim C3: whole-word matching does not fire inside longer tokens.
"Stoneyamato" is rewritten only because a dedicated compound phrase
rule exists for it, while "Stonewall", which has no compound rule, is
returned unchanged. -/
theorem C3_word_boundary_compounds :
    AutoFix.fix_text "Stoneyamato" = some "Stun Yamato" ∧
    AutoFix.fix_text "Stonewall" = some "Stonewall" ∧
    ("Stoneyamato\\b", "Stun Yamato") ∈ AutoFix.PHRASE_CORRECTIONS :=
  ⟨rfl, rfl, by decide⟩

/-- Claim C8: the corrector itself blanks a whole-line call-to-action
hallucination, space padding included, with no category gate involved
(fix_text takes no category input). -/
theorem C8_cta_blanked_by_corrector :
    AutoFix.fix_text "Thank you for watching!" = some "" ∧
    AutoFix.fix_text "  Thanks for watching  " = some "" :=
  ⟨rfl, rfl⟩

/-- Claim C9: the standalone action-word table is never consulted; the
corrector, which applies only the phrase rules and the name rules,
returns a bare misrecognized action token unchanged even though the
table maps it. -/
theorem C9_action_table_never_consulted :
    AutoFix.ACTION_CORRECTIONS.lookup "Stone" = some "Stun" ∧
    AutoFix.ACTION_CORRECTIONS.lookup "Stan" = some "Stun" ∧
    AutoFix.fix_text "Stone" = some "Stone" ∧
    AutoFix.fix_text "Stan" = some "Stan" :=
  ⟨rfl, rfl, rfl, rfl⟩

/-- Claim C6: the category gate accepts a filename exactly when some
category pattern is found in it, and in particular accepts the
pain_big file and rejects the kill file. -/
theorem C6_category_gate :
    (∀ f : String,
       Screams.should_process_file f = some true ↔
         ∃ p ∈ Screams.NONVERBAL_FILE_PATTERNS,
           pysearch false p f.data = some true) ∧
    Screams.should_process_file "voice_bebop_pain_big_03.json" = some true ∧
    Screams.should_process_file "voice_bebop_kill_01.json" = some false := by
  refine ⟨fun f => ?_, rfl, rfl⟩
  refine searchAny_some_true_iff false _ f.data ?_
  intro p hp
  simp only [Screams.NONVERBAL_FILE_PATTERNS, List.mem_cons,
    List.not_mem_nil, or_false] at hp
  rcases hp with rfl | rfl | rfl | rfl | rfl <;> rfl

/-- Witness for C6 at the accepted filename. -/
theorem C6_category_gate_witness :
    ∃ p ∈ Screams.NONVERBAL_FILE_PATTERNS,
      pysearch false p ("voice_bebop_pain_big_03.json" : String).data = some true :=
  (C6_category_gate.1 "voice_bebop_pain_big_03.json").mp C6_category_gate.2.1

/-- Claim C7: the validator reports only the first structural
violation, record fields in declaration order before segments, and
per-segment required fields in start, end, text, part order. -/
theorem C7_validator_first_violation :
    VJson.validate_json_file (JValue.jobj [("voiceline_id", JValue.jstr "123")]) =
      (false, "Missing \x27timestamp\x27 field") ∧
    VJson.validate_json_file (JValue.jobj
        [("voiceline_id", JValue.jstr "v"), ("timestamp", JValue.jstr "t"),
         ("segments", JValue.jarr [JValue.jobj []])]) =
      (false, "Segment 0 missing required field \x27start\x27") ∧
    VJson.validate_json_file (JValue.jobj
        [("voiceline_id", JValue.jstr "v"), ("timestamp", JValue.jstr "t"),
         ("segments", JValue.jarr
           [JValue.jobj [("start", JValue.jint 0), ("end", JValue.jint 1)]])]) =
      (false, "Segment 0 missing required field \x27text\x27") ∧
    VJson.validate_json_file (JValue.jobj
        [("voiceline_id", JValue.jstr "v"), ("timestamp", JValue.jstr "t"),
         ("segments", JValue.jarr
           [JValue.jobj [("start", JValue.jint 0), ("end", JValue.jint 1),
             ("text", JValue.jstr "x")]])]) =
      (false, "Segment 0 missing required field \x27part\x27") :=
  ⟨rfl, rfl, rfl, rfl⟩
/-- The category gate always answers: its five patterns compile. -/
theorem spf_isSome (f : String) :
    (Screams.should_process_file f).isSome = true := by
  refine searchAny_isSome false _ f.data ?_
  intro p hp
  simp only [Screams.NONVERBAL_FILE_PATTERNS, List.mem_cons,
    List.not_mem_nil, or_false] at hp
  rcases hp with rfl | rfl | rfl | rfl | rfl <;> rfl

/-- The corrector pass on a record whose segments key holds an array:
the loop result is written back into the record. -/
theorem autofix_process_jarr (fields : List (String × JValue))
    (segs : List JValue) (ch : List (String × String)) (m : Bool)
    (segs2 : List JValue)
    (h : jget fields "segments" = some (JValue.jarr segs))
    (hp : AutoFix.processSegments segs = some (ch, m, segs2)) :
    AutoFix.process_json_file (JValue.jobj fields) =
      some (ch, m,
        JValue.jobj (jsetFields fields "segments" (JValue.jarr segs2))) := by
  unfold AutoFix.process_json_file
  simp [pyContainsStr, pyIndexStr, pyIterate, h, hp, jset]

/-- The corrector pass leaves a record without a segments key alone. -/
theorem autofix_process_no_segments (fields : List (String × JValue))
    (h : jget fields "segments" = none) :
    AutoFix.process_json_file (JValue.jobj fields) =
      some ([], false, JValue.jobj fields) := by
  unfold AutoFix.process_json_file
  simp [pyContainsStr, h]

/-- The clearing pass skips a filename outside the category gate. -/
theorem screams_process_gate_false (filename : String) (data : JValue)
    (h : Screams.should_process_file filename = some false) :
    Screams.process_json_file filename data = some ([], false, data) := by
  unfold Screams.process_json_file
  rw [h]

/-- The clearing pass leaves a record without a segments key alone. -/
theorem screams_process_no_segments (filename : String)
    (fields : List (String × JValue))
    (h : jget fields "segments" = none) :
    Screams.process_json_file filename (JValue.jobj fields) =
      some ([], false, JValue.jobj fields) := by
  obtain ⟨b, hb⟩ := Option.isSome_iff_exists.mp (spf_isSome filename)
  unfold Screams.process_json_file
  rw [hb]
  cases b
  · rfl
  · simp [pyContainsStr, h]

/-- The clearing pass on a record whose segments key holds an array,
inside the gate: the loop result is written back. -/
theorem screams_process_jarr (filename : String)
    (fields : List (String × JValue)) (segs : List JValue)
    (ch : List (String × String)) (m : Bool) (segs2 : List JValue)
    (hg : Screams.should_process_file filename = some true)
    (h : jget fields "segments" = some (JValue.jarr segs))
    (hp : Screams.processSegments segs = some (ch, m, segs2)) :
    Screams.process_json_file filename (JValue.jobj fields) =
      some (ch, m,
        JValue.jobj (jsetFields fields "segments" (JValue.jarr segs2))) := by
  unfold Screams.process_json_file
  rw [hg]
  simp [pyContainsStr, pyIndexStr, pyIterate, h, hp, jset]

/-- The corrector loop does nothing on object segments without a text
key. -/
theorem autofix_segments_textless (segs : List JValue)
    (h : ∀ seg ∈ segs, ∃ sf, seg = JValue.jobj sf ∧ jget sf "text" = none) :
    AutoFix.processSegments segs = some ([], false, segs) := by
  induction segs with
  | nil => rfl
  | cons seg rest ih =>
    obtain ⟨sf, rfl, hsf⟩ := h _ (List.mem_cons_self _ _)
    have hstep : AutoFix.processSegment (JValue.jobj sf) =
        some ([], false, JValue.jobj sf) := by
      unfold AutoFix.processSegment
      simp [pyContainsStr, hsf]
    have hrest := ih (fun q hq => h q (List.mem_cons_of_mem _ hq))
    unfold AutoFix.processSegments
    rw [hstep, hrest]
    rfl

/-- The clearing loop does nothing on object segments without a text
key. -/
theorem screams_segments_textless (segs : List JValue)
    (h : ∀ seg ∈ segs, ∃ sf, seg = JValue.jobj sf ∧ jget sf "text" = none) :
    Screams.processSegments segs = some ([], false, segs) := by
  induction segs with
  | nil => rfl
  | cons seg rest ih =>
    obtain ⟨sf, rfl, hsf⟩ := h _ (List.mem_cons_self _ _)
    have hstep : Screams.processSegment (JValue.jobj sf) =
        some ([], false, JValue.jobj sf) := by
      unfold Screams.processSegment
      simp [pyContainsStr, hsf]
    have hrest := ih (fun q hq => h q (List.mem_cons_of_mem _ hq))
    unfold Screams.processSegments
    rw [hstep, hrest]
    rfl

/-- The corrector loop answers on well-typed segments and only ever
rewrites their text field. -/
theorem autofix_segments_welltyped (segs : List JValue)
    (h : ∀ seg ∈ segs, ∃ sf, seg = JValue.jobj sf ∧
        (jget sf "text" = none ∨ ∃ s, jget sf "text" = some (JValue.jstr s))) :
    ∃ ch m segs2, AutoFix.processSegments segs = some (ch, m, segs2) ∧
      List.Forall₂ (fun seg seg2 => seg2 = seg ∨
        ∃ sf s f, seg = JValue.jobj sf ∧
          jget sf "text" = some (JValue.jstr s) ∧
          AutoFix.fix_text s = some f ∧
          seg2 = JValue.jobj (jsetFields sf "text" (JValue.jstr f)))
        segs segs2 := by
  induction segs with
  | nil => exact ⟨[], false, [], rfl, List.Forall₂.nil⟩
  | cons seg rest ih =>
    obtain ⟨ch2, m2, rest2, hrest, hrel⟩ :=
      ih (fun q hq => h q (List.mem_cons_of_mem _ hq))
    obtain ⟨sf, rfl, hsf⟩ := h _ (List.mem_cons_self _ _)
    rcases hsf with hnone | ⟨s, hs⟩
    · have hstep : AutoFix.processSegment (JValue.jobj sf) =
          some ([], false, JValue.jobj sf) := by
        unfold AutoFix.processSegment
        simp [pyContainsStr, hnone]
      refine ⟨ch2, m2, JValue.jobj sf :: rest2, ?_,
        List.Forall₂.cons (Or.inl rfl) hrel⟩
      unfold AutoFix.processSegments
      rw [hstep, hrest]
      rfl
    · obtain ⟨f, hf⟩ := Option.isSome_iff_exists.mp (fix_text_total s)
      by_cases hne : (f != s) = true
      · have hstep : AutoFix.processSegment (JValue.jobj sf) =
            some ([(s, f)], true,
              JValue.jobj (jsetFields sf "text" (JValue.jstr f))) := by
          unfold AutoFix.processSegment
          simp [pyContainsStr, pyIndexStr, hs, hf, hne, jset]
        refine ⟨(s, f) :: ch2, true,
          JValue.jobj (jsetFields sf "text" (JValue.jstr f)) :: rest2, ?_,
          List.Forall₂.cons (Or.inr ⟨sf, s, f, rfl, hs, hf, rfl⟩) hrel⟩
        unfold AutoFix.processSegments
        rw [hstep, hrest]
        rfl
      · have hstep : AutoFix.processSegment (JValue.jobj sf) =
            some ([], false, JValue.jobj sf) := by
          unfold AutoFix.processSegment
          simp [pyContainsStr, pyIndexStr, hs, hf, hne]
        refine ⟨ch2, m2, JValue.jobj sf :: rest2, ?_,
          List.Forall₂.cons (Or.inl rfl) hrel⟩
        unfold AutoFix.processSegments
        rw [hstep, hrest]
        rfl

/-- Claim C10 as stated is too strong (counterexample): the passes are
not total over arbitrary loaded JSON objects.  A record whose segments
key holds a non-iterable value makes both loops raise TypeError
(modelled as none) when they iterate it. -/
theorem C10_arbitrary_object_raises :
    AutoFix.process_json_file (JValue.jobj [("segments", JValue.jint 5)]) = none ∧
    Screams.process_json_file "voice_bebop_pain_big_03.json"
      (JValue.jobj [("segments", JValue.jint 5)]) = none :=
  ⟨rfl, rfl⟩

/-- Claim C10, amended: no schema validation is a precondition, but
totality holds on the shapes the loops actually touch, not on
arbitrary objects.  A record lacking a segments key, or whose segments
array holds objects lacking a text key, is processed by both passes
without error, yields no change-log entries, is not counted modified,
and is never written back (the record comes back unchanged); and for
the corrector pass, any record whose segment text fields, where
present, are strings is processed without error, with nothing but
those text fields ever rewritten.  An unmodified record is never
persisted in any mode. -/
theorem C10_processors_total_on_welltyped :
    (∀ (fields : List (String × JValue)) (filename : String),
       jget fields "segments" = none →
         AutoFix.process_json_file (JValue.jobj fields) =
             some ([], false, JValue.jobj fields) ∧
           Screams.process_json_file filename (JValue.jobj fields) =
             some ([], false, JValue.jobj fields)) ∧
    (∀ (fields : List (String × JValue)) (filename : String)
       (segs : List JValue),
       jget fields "segments" = some (JValue.jarr segs) →
       (∀ seg ∈ segs, ∃ sf, seg = JValue.jobj sf ∧ jget sf "text" = none) →
         AutoFix.process_json_file (JValue.jobj fields) =
             some ([], false, JValue.jobj fields) ∧
           Screams.process_json_file filename (JValue.jobj fields) =
             some ([], false, JValue.jobj fields)) ∧
    (∀ (fields : List (String × JValue)) (segs : List JValue),
       jget fields "segments" = some (JValue.jarr segs) →
       (∀ seg ∈ segs, ∃ sf, seg = JValue.jobj sf ∧
           (jget sf "text" = none ∨
             ∃ s, jget sf "text" = some (JValue.jstr s))) →
       ∃ ch m segs2,
         AutoFix.process_json_file (JValue.jobj fields) =
             some (ch, m,
               JValue.jobj (jsetFields fields "segments" (JValue.jarr segs2))) ∧
           List.Forall₂ (fun seg seg2 => seg2 = seg ∨
               ∃ sf s f, seg = JValue.jobj sf ∧
                 jget sf "text" = some (JValue.jstr s) ∧
                 AutoFix.fix_text s = some f ∧
                 seg2 = JValue.jobj (jsetFields sf "text" (JValue.jstr f)))
             segs segs2) ∧
    (∀ d : Bool, wouldWrite d false = false) := by
  refine ⟨?_, ?_, ?_, by decide⟩
  · intro fields filename h
    exact ⟨autofix_process_no_segments fields h,
      screams_process_no_segments filename fields h⟩
  · intro fields filename segs h hseg
    have hsets := jsetFields_self fields "segments" (JValue.jarr segs) h
    have ha := autofix_process_jarr fields segs [] false segs h
      (autofix_segments_textless segs hseg)
    rw [hsets] at ha
    refine ⟨ha, ?_⟩
    obtain ⟨b, hb⟩ := Option.isSome_iff_exists.mp (spf_isSome filename)
    cases b
    · exact screams_process_gate_false filename _ hb
    · have hs := screams_process_jarr filename fields segs [] false segs hb h
        (screams_segments_textless segs hseg)
      rw [hsets] at hs
      exact hs
  · intro fields segs h hseg
    obtain ⟨ch, m, segs2, hp, hrel⟩ := autofix_segments_welltyped segs hseg
    exact ⟨ch, m, segs2, autofix_process_jarr fields segs ch m segs2 h hp, hrel⟩

/-- Witness for the amended C10: a record without segments through the
corrector pass, and a record whose single segment lacks text through
the clearing pass, both inside the category gate. -/
theorem C10_processors_total_on_welltyped_witness :
    AutoFix.process_json_file (JValue.jobj [("voiceline_id", JValue.jstr "v")]) =
      some ([], false, JValue.jobj [("voiceline_id", JValue.jstr "v")]) ∧
    Screams.process_json_file "voice_bebop_pain_big_03.json"
        (JValue.jobj
          [("segments", JValue.jarr [JValue.jobj [("start", JValue.jint 1)]])]) =
      some ([], false,
        JValue.jobj
          [("segments", JValue.jarr [JValue.jobj [("start", JValue.jint 1)]])]) := by
  constructor
  · exact (C10_processors_total_on_welltyped.1
      [("voiceline_id", JValue.jstr "v")] "x" rfl).1
  · refine (C10_processors_total_on_welltyped.2.1
      [("segments", JValue.jarr [JValue.jobj [("start", JValue.jint 1)]])]
      "voice_bebop_pain_big_03.json"
      [JValue.jobj [("start", JValue.jint 1)]] rfl ?_).2
    intro seg hseg
    rw [List.mem_singleton] at hseg
    exact ⟨[("start", JValue.jint 1)], hseg, rfl⟩
